import Mathlib

/-!
# cloudflare-nav: the announcement worker (`src/index.js`)

A shallow embedding of the worker's authentication guard, announcement
repository and router, followed by theorems about them.

Conventions of the embedding

* A JavaScript string is a `Str`, the list of its Unicode code points (so only
  well-formed strings, without lone surrogates).  `jsLength` is the JavaScript
  `length` (UTF-16 code units).
* An environment variable or a header is an `Option Str`: `none` is
  `undefined` / `null`. Environment variables are text bindings, so
  `String(actualPassword)` is `actualPassword`.
* A rejection of a key-value operation carries no `message`, so the worker
  reports it with its fallback text `未知错误`.
* What the platform decides (`crypto.randomUUID()`, `Date.now()`,
  `new Date().toISOString()`, `decodeURIComponent`) is an explicit input, the
  `Runtime`.
* The key-value namespace is an explicit state; `handleRequest` returns the
  response together with the namespace after the request.
-/

namespace CloudflareNav

/-! ## Strings -/

/-- A JavaScript string as the list of its code points. -/
abbrev Str := List Char

/-- The JavaScript `length` of a string: UTF-16 code units, two for every code
point outside the basic plane. -/
def jsLength (s : Str) : Nat :=
  (s.map (fun c => if c.toNat < 65536 then 1 else 2)).sum

/-- The characters that `String.prototype.trim` strips: ECMAScript WhiteSpace and
LineTerminator. -/
def isWhiteSpace (c : Char) : Bool :=
  let n := c.toNat
  n == 0x09 || n == 0x0A || n == 0x0B || n == 0x0C || n == 0x0D || n == 0x20 ||
  n == 0xA0 || n == 0x1680 || (0x2000 ≤ n && n ≤ 0x200A) || n == 0x2028 ||
  n == 0x2029 || n == 0x202F || n == 0x205F || n == 0x3000 || n == 0xFEFF

/-- The method `s.trim()`. -/
def trim (s : Str) : Str :=
  ((s.dropWhile isWhiteSpace).reverse.dropWhile isWhiteSpace).reverse

/-- The method `s.startsWith(p)`. -/
def startsWith : Str → Str → Bool
  | _, [] => true
  | [], _ :: _ => false
  | c :: cs, p :: ps => c == p && startsWith cs ps

/-- The method `s.endsWith(p)`. -/
def endsWith (s p : Str) : Bool :=
  startsWith s.reverse p.reverse

/-- The method `s.includes(p)`. -/
def includes : Str → Str → Bool
  | [], p => startsWith [] p
  | c :: cs, p => startsWith (c :: cs) p || includes cs p

/-- Lower-casing of the ASCII letters. On an ASCII string (see `isAscii`) it is
the method `toLowerCase()`; `url.pathname` is always ASCII, since other
characters are percent-encoded. On other strings the method does more (it maps
the Kelvin sign U+212A to `k`), so a base path with such characters is outside
this model of the method. -/
def toLowerCase (s : Str) : Str :=
  s.map Char.toLower

/-- The string has ASCII characters only: the strings on which `toLowerCase`
above is the method `toLowerCase()`. -/
def isAscii (s : Str) : Bool :=
  s.all (fun c => c.toNat < 128)

/-- The call `s.split(sep)` for a one-character separator. -/
def split (sep : Char) : Str → List Str
  | [] => [[]]
  | c :: cs =>
    if c = sep then [] :: split sep cs
    else
      match split sep cs with
      | [] => [[c]]
      | seg :: rest => (c :: seg) :: rest

/-- The value `segments[segments.length - 1]` of `path.split('/')`. -/
def lastSegment (path : Str) : Str :=
  ((split '/' path).getLast?).getD []

/-- Truthiness of a value that is a string or `undefined`. -/
def truthy : Option Str → Bool
  | some (_ :: _) => true
  | _ => false

/-- The expression `a || b` on values that are strings or `undefined`. -/
def jsOr (a b : Option Str) : Option Str :=
  if truthy a then a else b

/-! ## Regular expressions of the shape `lit([^stop]+)` -/

/-- One attempt of the pattern `lit([^stop]+)` at the start of `s`: the literal,
then the longest run of characters other than `stop`, which must not be empty.
The result is capture group 1. -/
def reAt (lit : Str) (stop : Char) (s : Str) : Option Str :=
  if startsWith s lit then
    match (s.drop lit.length).takeWhile (fun c => c != stop) with
    | [] => none
    | c :: cs => some (c :: cs)
  else none

/-- The call `s.match(/lit([^stop]+)/)`: the leftmost position at which the
pattern matches; the result is capture group 1. -/
def reMatch (lit : Str) (stop : Char) : Str → Option Str
  | [] => reAt lit stop []
  | c :: cs =>
    match reAt lit stop (c :: cs) with
    | some cap => some cap
    | none => reMatch lit stop cs

/-- A word character of `\b`: `[A-Za-z0-9_]`. -/
def isWordChar (c : Char) : Bool :=
  c.isAlphanum || c == '_'

/-- The assertion `\b` between a previous and a next character (`none` at either
end of the input). -/
def wordBoundary (prev next : Option Char) : Bool :=
  (prev.map isWordChar).getD false != (next.map isWordChar).getD false

/-- The call `s.match(/\blit([^stop]+)/)`, scanning `s` with `prev` the character
before it. -/
def reMatchB (lit : Str) (stop : Char) (prev : Option Char) : Str → Option Str
  | [] => if wordBoundary prev none then reAt lit stop [] else none
  | c :: cs =>
    match (if wordBoundary prev (some c) then reAt lit stop (c :: cs) else none) with
    | some cap => some cap
    | none => reMatchB lit stop (some c) cs

/-! ## Requests, environment, responses -/

/-- A value read from a parsed request body. `other` is any value that is
neither a string nor nullish (a number, a boolean, an object, a `File`), with
its truthiness. -/
inductive JsVal where
  | undefined
  | null
  | str (s : Str)
  | other (truthy : Bool)
  deriving DecidableEq, Repr

/-- Truthiness of a body value. -/
def JsVal.truthy : JsVal → Bool
  | .undefined => false
  | .null => false
  | .str s => !s.isEmpty
  | .other t => t

/-- The result of `await request.json()`: a rejection (malformed JSON), the value
`null`, or any other value, given by the properties the worker reads from it
(all `undefined` on a primitive). -/
inductive JsonResult where
  | rejected
  | null
  | value (password id title content : JsVal)
  deriving DecidableEq, Repr

/-- The body of a request, as seen through the three readers the worker uses. -/
structure Body where
  /-- The form reader `request.formData()`: `none` when it rejects, else the
  value of `formData.get('password')`. -/
  form : Option JsVal
  /-- The reader `request.json()`. -/
  json : JsonResult
  /-- The reader `request.text()`. -/
  text : Str
  deriving DecidableEq, Repr

/-- An incoming request. `request.url` is an absolute URL (the `Request`
constructor rejects anything else), given by its parts. -/
structure Request where
  method : Str
  /-- The part `protocol//host` of the URL. -/
  origin : Str
  /-- The part `url.pathname`. -/
  path : Str
  /-- The value `url.searchParams.get('page')`, `none` when `has('page')` is
  false. -/
  page : Option Str
  cookie : Option Str
  authorization : Option Str
  contentType : Option Str
  body : Body
  deriving DecidableEq, Repr

/-- A stored announcement: `{ id, title, content, createdAt, updatedAt? }`. -/
structure Announcement where
  id : Str
  title : Str
  content : Str
  createdAt : Str
  updatedAt : Option Str
  deriving DecidableEq, Repr

/-- The key-value namespace bound as `env.KV`: the stored entries in key-listing
order (each value is the JSON text of an announcement, read back with
`type: 'json'`), and which of its operations reject. A rejection carries no
`message`. -/
structure KVNamespace where
  entries : List (Str × Announcement)
  /-- The call `list()` rejects. -/
  listFails : Bool
  /-- The keys on which `get` rejects. -/
  getFails : List Str
  /-- The call `put` rejects. -/
  putFails : Bool
  /-- The call `delete` rejects. -/
  deleteFails : Bool
  deriving DecidableEq, Repr

/-- The environment bindings the worker reads. -/
structure Env where
  AUTH_KEY : Option Str
  PW : Option Str
  API_TOKEN : Option Str
  HOME_URL : Option Str
  KV : Option KVNamespace
  deriving DecidableEq, Repr

/-- What the platform decides during one request. -/
structure Runtime where
  /-- The result of `crypto.randomUUID()`. -/
  randomUUID : Str
  /-- The result of `Date.now()`. -/
  now : Nat
  /-- The result of `new Date().toISOString()`. -/
  isoNow : Str
  /-- The function `decodeURIComponent`; `none` when it throws `URIError`. -/
  decodeURIComponent : Str → Option Str

/-- The pagination block of a listing. -/
structure Pagination where
  currentPage : Int
  totalPages : Nat
  totalItems : Nat
  deriving DecidableEq, Repr

/-- The result of `getAnnouncements`. -/
structure ListResult where
  announcements : List Announcement
  pagination : Pagination
  error : Option String
  deriving DecidableEq, Repr

/-- The JSON bodies the worker sends. -/
inductive JsonOut where
  /-- The body `{ error: msg }`. -/
  | error (msg : String)
  /-- The body `{ error: 'ID "<id>" 已存在，请使用其他ID' }`. -/
  | idExists (id : Str)
  /-- The body `{ success: true }`. -/
  | success
  /-- The body `{ success: true, id }`. -/
  | successId (id : Str)
  /-- The body `{ success: true, message }`. -/
  | successMessage (msg : String)
  /-- A stored announcement. -/
  | announcement (a : Announcement)
  /-- The result of `getAnnouncements`. -/
  | list (r : ListResult)
  /-- The body `{ error, announcements: [], pagination: {1, 1, 0} }`. -/
  | listFailed (msg : String)
  deriving DecidableEq, Repr

/-- The body of a response. Pages are kept as the arguments of their
templates. -/
inductive ResBody where
  /-- No body (`null`). -/
  | null
  /-- A plain text. -/
  | text (s : String)
  /-- The page `getLoginHtml(error)`. -/
  | loginHtml (error : Bool)
  /-- The page "加载公告失败" with the error, the base path and `Date.now()`. -/
  | loadFailedHtml (error : String) (basePath : Str) (cb : Nat)
  /-- The page `getAnnouncementHtml(title, announcements, isAdmin, pagination,
  basePath, env)`, with `env` reduced to the API token the page embeds. -/
  | announcementHtml (title : String) (announcements : List Announcement) (isAdmin : Bool)
      (pagination : Pagination) (basePath : Str) (apiToken : Str)
  /-- The text `JSON.stringify(j)`. -/
  | json (j : JsonOut)
  deriving DecidableEq, Repr

/-- A response: status, headers in the order they are set, body. -/
structure Response where
  status : Nat
  headers : List (String × Str)
  body : ResBody
  deriving DecidableEq, Repr

/-- The value of a response header, if set. -/
def Response.header (r : Response) (name : String) : Option Str :=
  (r.headers.find? (fun h => h.1 == name)).map (fun h => h.2)

/-! ## Constants and response helpers -/

/-- The constant `COOKIE_NAME`. -/
def COOKIE_NAME : Str := ['t', 'o', 'k', 'e', 'n']

/-- The constant `COOKIE_EXPIRY`, seven days in seconds. -/
def COOKIE_EXPIRY : Nat := 60 * 60 * 24 * 7

/-- The value every response uses for `Cache-Control`. -/
def noStore : Str := "no-store, no-cache, must-revalidate, proxy-revalidate".toList

/-- The cache headers that `createAuthRedirect` and `createLogoutRedirect` set. -/
def redirectCacheHeaders : List (String × Str) :=
  [("Cache-Control", noStore), ("Pragma", "no-cache".toList), ("Expires", "0".toList),
   ("Surrogate-Control", "no-store".toList), ("CDN-Cache-Control", "no-store".toList)]

/-- The function `createNoCacheResponse(body, options)`: the given headers, then
the six cache headers. -/
def createNoCacheResponse (body : ResBody) (status : Nat) (headers : List (String × Str)) :
    Response :=
  { status := status
    headers := headers ++ redirectCacheHeaders ++ [("CF-Cache-Status", "BYPASS".toList)]
    body := body }

/-- The response `new Response(JSON.stringify(j), { status, headers })` of
`handleAuth`, with `Content-Type` and `Cache-Control`. -/
def authJson (status : Nat) (j : JsonOut) : Response :=
  { status := status
    headers := [("Content-Type", "application/json".toList), ("Cache-Control", noStore)]
    body := .json j }

/-- The headers `{ 'Content-Type': 'text/html; charset=utf-8' }`. -/
def htmlType : List (String × Str) := [("Content-Type", "text/html; charset=utf-8".toList)]

/-- The headers `{ 'Content-Type': 'text/plain; charset=utf-8' }`. -/
def textType : List (String × Str) := [("Content-Type", "text/plain; charset=utf-8".toList)]

/-- The headers `{ 'Content-Type': 'application/json' }`. -/
def jsonType : List (String × Str) := [("Content-Type", "application/json".toList)]

/-- The value `env.HOME_URL || '/'`. -/
def basePathOf (env : Env) : Str :=
  (jsOr env.HOME_URL (some ['/'])).getD ['/']

/-- The value `basePath.startsWith('/') ? basePath : '/' + basePath`. -/
def normalizeBase (basePath : Str) : Str :=
  if startsWith basePath ['/'] then basePath else '/' :: basePath

/-! ## Authentication -/

/-- The `cookieValue` that `verifyPassword` reads from the `Cookie` header: the
three attempts, in order (the pattern `token=([^;]+)`, the header starting with
`token=`, the pattern `\btoken=([^;]+)`), else the empty string. -/
def cookieValueOf (cookie : Str) : Str :=
  match reMatch (COOKIE_NAME ++ ['=']) ';' cookie with
  | some cap => trim cap
  | none =>
    if startsWith cookie (COOKIE_NAME ++ ['=']) then
      trim (cookie.drop (COOKIE_NAME.length + 1))
    else
      match reMatchB (COOKIE_NAME ++ ['=']) ';' none cookie with
      | some cap => trim cap
      | none => []

/-- The function `verifyPassword(request, env)`. -/
def verifyPassword (request : Request) (env : Env) : Bool :=
  if !truthy env.AUTH_KEY && !truthy env.PW then true
  else
    let actualPassword := jsOr env.AUTH_KEY env.PW
    let cookie := (jsOr request.cookie (some [])).getD []
    let cookieValue := cookieValueOf cookie
    -- `String(actualPassword)` is `actualPassword` itself: the secret is a string
    some cookieValue == actualPassword || some cookieValue == actualPassword

/-- The function `verifyApiToken(request, env)`. -/
def verifyApiToken (request : Request) (env : Env) : Bool :=
  if !truthy env.API_TOKEN then false
  else
    let authHeader := (jsOr request.authorization (some [])).getD []
    let token :=
      if startsWith authHeader "Bearer ".toList then trim (authHeader.drop 7)
      else trim authHeader
    some token == env.API_TOKEN

/-- The token `createAuthRedirect` puts in the session cookie: the password when
it is a string shorter than 20, else `crypto.randomUUID()`. -/
def sessionToken (rt : Runtime) (password : Option Str) : Str :=
  match password with
  | some p => if jsLength p < 20 then p else rt.randomUUID
  | none => rt.randomUUID

/-- The function `createAuthRedirect(redirectUrl, password)`, for a redirect URL
and a token that `headers.set` accepts: on a value with a character that is
invalid in a header (a line feed, say) the call throws, and the `catch` of
`handleAuth` answers its 400 page instead. -/
def createAuthRedirect (rt : Runtime) (redirectUrl : Str) (password : Option Str) : Response :=
  let tokenValue := sessionToken rt password
  let cookieValue := COOKIE_NAME ++ ['='] ++ tokenValue ++
    "; HttpOnly; SameSite=Strict; Path=/; Max-Age=".toList ++ (toString COOKIE_EXPIRY).toList
  { status := 302
    headers := [("Location", redirectUrl), ("Set-Cookie", cookieValue)] ++ redirectCacheHeaders
    body := .null }

/-- The function `createLogoutRedirect(request, env)`. -/
def createLogoutRedirect (request : Request) (env : Env) : Response :=
  let normalizedPath := normalizeBase (basePathOf env)
  let redirectUrl := request.origin ++ normalizedPath
  let cookieValue := COOKIE_NAME ++
    "=; HttpOnly; SameSite=Strict; Path=/; Max-Age=0; Expires=Thu, 01 Jan 1970 00:00:00 GMT".toList
  { status := 302
    headers := [("Location", redirectUrl), ("Set-Cookie", cookieValue)] ++ redirectCacheHeaders
    body := .null }

/-- The expression `v?.trim() || ''` on a body value; `none` when it throws
(`trim` is not a function of a non-string). -/
def trimOrEmpty : JsVal → Option Str
  | .undefined => some []
  | .null => some []
  | .str s => some (trim s)
  | .other _ => none

/-- The password a login POST carries, read according to the content type;
`none` when reading throws. -/
def loginPassword (rt : Runtime) (request : Request) : Option Str :=
  let contentType := (jsOr request.contentType (some [])).getD []
  if includes contentType "application/x-www-form-urlencoded".toList ||
      includes contentType "multipart/form-data".toList then
    -- `request.formData().catch(() => new FormData())`
    trimOrEmpty (request.body.form.getD .null)
  else if includes contentType "application/json".toList then
    -- `request.json().catch(() => ({}))`
    match request.body.json with
    | .rejected => some []
    | .null => none
    | .value password _ _ _ => trimOrEmpty password
  else
    match reMatch "password=".toList '&' request.body.text with
    | some cap => (rt.decodeURIComponent cap).map trim
    | none => some []

/-- The test of `handleAuth` for an API request:
`path.includes('/api/') && path.startsWith(normalizedBasePath + '/api/')`. -/
def isApiPath (env : Env) (path : Str) : Bool :=
  let normalizedBasePath := normalizeBase (basePathOf env)
  includes path "/api/".toList && startsWith path (normalizedBasePath ++ "/api/".toList)

/-- The function `handleAuth(request, env)`: `none` when the request may
proceed, else the response to send. -/
def handleAuth (rt : Runtime) (request : Request) (env : Env) : Option Response :=
  let path := request.path
  if isApiPath env path then
    if verifyApiToken request env then none
    else some (authJson 401 (.error "认证失败，请提供有效的API Token"))
  else if verifyPassword request env then none
  else if request.method == "POST".toList then
    let isApiLogin := includes path "/api/login".toList
    match loginPassword rt request with
    | some password =>
      let actualPassword := jsOr env.AUTH_KEY env.PW
      if some password == actualPassword then
        if isApiLogin then some (authJson 200 .success)
        else
          let redirectUrl := request.origin ++ normalizeBase (basePathOf env)
          some (createAuthRedirect rt redirectUrl actualPassword)
      else if isApiLogin then some (authJson 401 (.error "密码错误"))
      else some (createNoCacheResponse (.loginHtml true) 401 htmlType)
    | none =>
      if isApiLogin then some (authJson 400 (.error "请求处理失败"))
      else some (createNoCacheResponse (.loginHtml true) 400 htmlType)
  else if includes path "/api/".toList then
    some (authJson 401 (.error "认证失败，请提供有效的认证信息"))
  else some (createNoCacheResponse (.loginHtml false) 401 htmlType)

/-! ## The key-value namespace -/

/-- Replace the value under `key`, or append a new entry at the end. -/
def upsert (key : Str) (a : Announcement) : List (Str × Announcement) → List (Str × Announcement)
  | [] => [(key, a)]
  | (k, v) :: rest => if k = key then (key, a) :: rest else (k, v) :: upsert key a rest

/-- The value stored under `key`. -/
def lookupKey (key : Str) : List (Str × Announcement) → Option Announcement
  | [] => none
  | (k, v) :: rest => if k = key then some v else lookupKey key rest

/-- The call `KV.get(key)`: `none` when it rejects, else the stored value or
`null`. -/
def KVNamespace.get (kv : KVNamespace) (key : Str) : Option (Option Announcement) :=
  if key ∈ kv.getFails then none else some (lookupKey key kv.entries)

/-- The call `KV.put(key, JSON.stringify(a))`: `none` when it rejects, else the
namespace afterwards. -/
def KVNamespace.put (kv : KVNamespace) (key : Str) (a : Announcement) : Option KVNamespace :=
  if kv.putFails then none else some { kv with entries := upsert key a kv.entries }

/-- The call `KV.delete(key)`: `none` when it rejects, else the namespace
afterwards. -/
def KVNamespace.delete (kv : KVNamespace) (key : Str) : Option KVNamespace :=
  if kv.deleteFails then none
  else some { kv with entries := kv.entries.filter (fun e => e.1 != key) }

/-- The call `KV.list({ limit: 1000 })`: `none` when it rejects, else the key
names. -/
def KVNamespace.list (kv : KVNamespace) : Option (List Str) :=
  if kv.listFails then none else some ((kv.entries.map (fun e => e.1)).take 1000)

/-! ## The announcement repository -/

/-- The result of `getAnnouncements` when it catches an error. -/
def listError (msg : String) : ListResult :=
  { announcements := []
    pagination := { currentPage := 1, totalPages := 1, totalItems := 0 }
    error := some msg }

/-- The pagination step of `getAnnouncements` on the materialised list. The
quotient `Math.ceil(totalItems / pageSize)` is taken on integers. -/
def paginate (announcements : List Announcement) (page : Int) (pageSize : Nat) : ListResult :=
  let totalItems := announcements.length
  let totalPages := max 1 ((totalItems + pageSize - 1) / pageSize)
  let page := min (totalPages : Int) (max 1 page)
  let startIndex := ((page - 1) * (pageSize : Int)).toNat
  let endIndex := min (startIndex + pageSize) totalItems
  let paginatedItems := (announcements.drop startIndex).take (endIndex - startIndex)
  { announcements := paginatedItems
    pagination := { currentPage := page, totalPages := totalPages, totalItems := totalItems }
    error := none }

/-- The function `getAnnouncements(env, page, pageSize)`. -/
def getAnnouncements (env : Env) (page : Int) (pageSize : Nat) : ListResult :=
  let page := if page = 0 then 1 else page
  let pageSize := if pageSize = 0 then 10 else pageSize
  match env.KV with
  | none => listError "KV绑定不可用"
  | some kv =>
    match kv.list with
    | none => listError "无法获取公告列表: 未知错误"
    | some keys =>
      -- `KV.get(key.name, { type: 'json' }).catch(() => null)`
      let results := keys.map (fun key => (kv.get key).getD none)
      let announcements := results.filterMap id
      paginate announcements page pageSize

/-! ## The router -/

/-- The value of a run of decimal digits. -/
def digitsValue (ds : List Char) : Nat :=
  ds.foldl (fun acc c => 10 * acc + (c.toNat - 48)) 0

/-- The call `parseInt(s, 10)`; `none` is `NaN`. -/
def parseInt (s : Str) : Option Int :=
  let s := s.dropWhile isWhiteSpace
  let signed : Bool × Str :=
    match s with
    | '-' :: r => (true, r)
    | '+' :: r => (false, r)
    | r => (false, r)
  let ds := signed.2.takeWhile Char.isDigit
  if ds.isEmpty then none
  else some (if signed.1 then -(digitsValue ds : Int) else (digitsValue ds : Int))

/-- The page a request asks for: `?page=N` when `N` parses to a positive
number, else 1. -/
def pageOf (request : Request) : Int :=
  match request.page with
  | none => 1
  | some v =>
    match parseInt v with
    | some n => if n > 0 then n else 1
    | none => 1

/-- The expression `s.endsWith('/') ? s.slice(0, -1) : s`. -/
def dropTrailingSlash (s : Str) : Str :=
  if endsWith s ['/'] then s.dropLast else s

/-- The routes of `handleRequest`, in the order it tests them. -/
inductive Route where
  | logout
  | root
  | forbidden
  | listView
  | adminView
  | apiList
  | apiGet
  | apiCreate
  | apiUpdate
  | apiDelete
  | noMatch
  deriving DecidableEq, Repr

/-- The branch of `handleRequest` that a method and a path select. -/
def route (env : Env) (method path : Str) : Route :=
  let basePath := basePathOf env
  let lowerPath := toLowerCase path
  let lowerBasePath := toLowerCase basePath
  let logoutPath := basePath ++ "/logout".toList
  let logoutPathLower := toLowerCase logoutPath
  if lowerPath == logoutPathLower || lowerPath == logoutPathLower ++ ['/'] then .logout
  else if path == ['/'] || path == [] then .root
  else
    let normalizedLowerPath := dropTrailingSlash lowerPath
    let normalizedLowerBasePath := dropTrailingSlash lowerBasePath
    if normalizedLowerPath != normalizedLowerBasePath &&
        !startsWith normalizedLowerPath (normalizedLowerBasePath ++ ['/']) then .forbidden
    else if normalizedLowerPath == normalizedLowerBasePath then .listView
    else if normalizedLowerPath == normalizedLowerBasePath ++ "/admin".toList then .adminView
    else if normalizedLowerPath == normalizedLowerBasePath ++ "/api/announcements".toList &&
        method == "GET".toList then .apiList
    else if method == "GET".toList &&
        startsWith normalizedLowerPath (normalizedLowerBasePath ++ "/api/announcements/".toList)
      then .apiGet
    else if normalizedLowerPath == normalizedLowerBasePath ++ "/api/announcements".toList &&
        method == "POST".toList then .apiCreate
    else if method == "PUT".toList &&
        startsWith normalizedLowerPath (normalizedLowerBasePath ++ "/api/announcements/".toList)
      then .apiUpdate
    else if method == "DELETE".toList &&
        startsWith normalizedLowerPath (normalizedLowerBasePath ++ "/api/announcements/".toList)
      then .apiDelete
    else .noMatch

/-- A JSON response of the API routes, through `createNoCacheResponse`. -/
def apiJson (status : Nat) (j : JsonOut) : Response :=
  createNoCacheResponse (.json j) status jsonType

/-- The body of the list view (`GET P`), after authentication. -/
def listView (rt : Runtime) (request : Request) (env : Env) : Response :=
  let result := getAnnouncements env (pageOf request) 10
  match result.error with
  | some e => createNoCacheResponse (.loadFailedHtml e (basePathOf env) rt.now) 500 htmlType
  | none =>
    createNoCacheResponse
      (.announcementHtml "公告列表" result.announcements false result.pagination (basePathOf env) [])
      200 htmlType

/-- The body of the admin view (`GET P/admin`), after authentication. -/
def adminView (request : Request) (env : Env) : Response :=
  let result := getAnnouncements env (pageOf request) 10
  createNoCacheResponse
    (.announcementHtml "公告管理" result.announcements true result.pagination (basePathOf env)
      ((jsOr env.API_TOKEN (some [])).getD []))
    200 htmlType

/-- The body of `GET P/api/announcements`, after authentication. -/
def apiList (request : Request) (env : Env) : Response :=
  match env.KV with
  | none => apiJson 500 (.listFailed "KV绑定不可用")
  | some _ =>
    let result := getAnnouncements env (pageOf request) 10
    match result.error with
    | some e => apiJson 500 (.error e)
    | none => apiJson 200 (.list result)

/-- The body of `GET P/api/announcements/{id}`, after authentication. -/
def apiGet (request : Request) (env : Env) : Response :=
  let id := lastSegment request.path
  match env.KV with
  | none => apiJson 500 (.error "KV绑定不可用")
  | some kv =>
    match kv.get id with
    | none => apiJson 500 (.error "获取公告失败: 未知错误")
    | some none => apiJson 404 (.error "公告不存在")
    | some (some announcement) => apiJson 200 (.announcement announcement)

/-- The id a create request asks for: `data.id.trim()` when `data.id` is a
string that is not blank, else `none` (an id is generated). -/
def customId : JsVal → Option Str
  | .str s => if !s.isEmpty && !(trim s).isEmpty then some (trim s) else none
  | _ => none

/-- The body of `POST P/api/announcements`, after authentication: the response
and the environment afterwards. -/
def apiCreate (rt : Runtime) (request : Request) (env : Env) : Response × Env :=
  match env.KV with
  | none => (apiJson 500 (.error "KV绑定不可用"), env)
  | some kv =>
    match request.body.json with
    | .rejected => (apiJson 400 (.error "无效的JSON数据"), env)
    | .null => (apiJson 500 (.error "Cannot read properties of null (reading 'title')"), env)
    | .value _ dataId dataTitle dataContent =>
      if !dataTitle.truthy || !dataContent.truthy then
        (apiJson 400 (.error "标题和内容不能为空"), env)
      else
        -- the id, or the response that ends the request
        let chosen : Except Response Str :=
          match customId dataId with
          | some id =>
            match kv.get id with
            | none => .error (apiJson 500 (.error "检查ID是否存在失败: 未知错误"))
            | some (some _) => .error (apiJson 400 (.idExists id))
            | some none => .ok id
          | none => .ok ("announcement_".toList ++ (toString rt.now).toList)
        match chosen with
        | .error r => (r, env)
        | .ok id =>
          match dataTitle, dataContent with
          | .str title, .str content =>
            let announcement : Announcement :=
              { id := id, title := trim title, content := trim content,
                createdAt := rt.isoNow, updatedAt := none }
            match kv.put id announcement with
            | none => (apiJson 500 (.error "存储公告失败: 未知错误"), env)
            | some kv' => (apiJson 200 (.successId id), { env with KV := some kv' })
          | .str _, _ => (apiJson 500 (.error "data.content.trim is not a function"), env)
          | _, _ => (apiJson 500 (.error "data.title.trim is not a function"), env)

/-- The body of `PUT P/api/announcements/{id}`, after authentication. -/
def apiUpdate (rt : Runtime) (request : Request) (env : Env) : Response × Env :=
  let id := lastSegment request.path
  match env.KV with
  | none => (apiJson 500 (.error "KV绑定不可用"), env)
  | some kv =>
    match kv.get id with
    | none => (apiJson 500 (.error "检查公告是否存在失败: 未知错误"), env)
    | some none => (apiJson 404 (.error "公告不存在"), env)
    | some (some existingData) =>
      match request.body.json with
      | .rejected => (apiJson 400 (.error "无效的JSON数据"), env)
      | .null => (apiJson 500 (.error "Cannot read properties of null (reading 'title')"), env)
      | .value _ dataId dataTitle dataContent =>
        if !dataTitle.truthy || !dataContent.truthy then
          (apiJson 400 (.error "标题和内容不能为空"), env)
        else if dataId.truthy && dataId != .str id then
          (apiJson 400 (.error "ID不匹配，不允许修改ID"), env)
        else
          match dataTitle, dataContent with
          | .str title, .str content =>
            let updatedAnnouncement : Announcement :=
              { existingData with
                id := id, title := trim title, content := trim content,
                updatedAt := some rt.isoNow }
            match kv.put id updatedAnnouncement with
            | none => (apiJson 500 (.error "更新公告失败: 未知错误"), env)
            | some kv' => (apiJson 200 .success, { env with KV := some kv' })
          | .str _, _ => (apiJson 500 (.error "data.content.trim is not a function"), env)
          | _, _ => (apiJson 500 (.error "data.title.trim is not a function"), env)

/-- The body of `DELETE P/api/announcements/{id}`, after authentication. -/
def apiDelete (request : Request) (env : Env) : Response × Env :=
  let id := lastSegment request.path
  match env.KV with
  | none => (apiJson 500 (.error "KV绑定不可用"), env)
  | some kv =>
    match kv.get id with
    | none => (apiJson 500 (.error "检查公告是否存在失败: 未知错误"), env)
    | some none => (apiJson 200 (.successMessage "公告不存在或已被删除"), env)
    | some (some _) =>
      match kv.delete id with
      | none => (apiJson 500 (.error "删除公告失败: 未知错误"), env)
      | some kv' => (apiJson 200 .success, { env with KV := some kv' })

/-- The function `handleRequest(request, env, ctx)`: the response, and the
environment (the key-value namespace) after the request. -/
def handleRequest (rt : Runtime) (request : Request) (env : Env) : Response × Env :=
  match route env request.method request.path with
  | .logout => (createLogoutRedirect request env, env)
  | .root => (createNoCacheResponse .null 204 [], env)
  | .forbidden => (createNoCacheResponse (.text "拒绝访问 - 403 Forbidden") 403 textType, env)
  | .noMatch => (createNoCacheResponse .null 204 [], env)
  | r =>
    match handleAuth rt request env with
    | some authResponse => (authResponse, env)
    | none =>
      match r with
      | .listView => (listView rt request env, env)
      | .adminView => (adminView request env, env)
      | .apiList => (apiList request env, env)
      | .apiGet => (apiGet request env, env)
      | .apiCreate => apiCreate rt request env
      | .apiUpdate => apiUpdate rt request env
      | .apiDelete => apiDelete request env
      | _ => (createNoCacheResponse .null 204 [], env)

/-! ## The claim's reading of a `Cookie` header, and the inputs of the examples -/

/-- Following the claim's words: the cookies of a `Cookie` header as (name,
value) pairs. The header is split at `;`, each piece at its first `=`, and names
and values are trimmed. -/
def cookiePairs (header : Str) : List (Str × Str) :=
  (split ';' header).map (fun piece =>
    (trim (piece.takeWhile (fun c => c != '=')),
     trim ((piece.dropWhile (fun c => c != '=')).drop 1)))

/-- The platform values used in the examples. -/
def exampleRuntime : Runtime :=
  { randomUUID := "123e4567-e89b-42d3-a456-426614174000".toList
    now := 1700000000000
    isoNow := "2023-11-14T22:13:20.000Z".toList
    decodeURIComponent := fun s => some s }

/-- A request without a body. -/
def emptyBody : Body := { form := none, json := .rejected, text := [] }

/-- A working, empty namespace. -/
def emptyStore : KVNamespace :=
  { entries := [], listFails := false, getFails := [], putFails := false, deleteFails := false }

/-- A stored announcement of the examples. -/
def sampleAnnouncement : Announcement :=
  { id := "a1".toList, title := "Old".toList, content := "Text".toList,
    createdAt := "2023-01-01T00:00:00.000Z".toList, updatedAt := none }

/-- A working namespace that holds `sampleAnnouncement` under the key `a1`. -/
def sampleStore : KVNamespace :=
  { entries := [("a1".toList, sampleAnnouncement)], listFails := false, getFails := [],
    putFails := false, deleteFails := false }

/-- An environment with the secret `AUTH_KEY`, the base path `/nav`, no API
token and no namespace. -/
def secretEnv (secret : Str) : Env :=
  { AUTH_KEY := some secret, PW := none, API_TOKEN := none, HOME_URL := some "/nav".toList,
    KV := none }

/-- An environment with the API token `tok`, a working empty namespace, and the
given base path and secret. -/
def apiEnv (home : Option Str) (secret : Option Str) : Env :=
  { AUTH_KEY := secret, PW := none, API_TOKEN := some "tok".toList, HOME_URL := home,
    KV := some emptyStore }

/-- A request `GET /nav` that carries only a `Cookie` header. -/
def cookieRequest (cookie : Option Str) : Request :=
  { method := "GET".toList, origin := "https://example.com".toList, path := "/nav".toList,
    page := none, cookie := cookie, authorization := none, contentType := none,
    body := emptyBody }

/-- A request without a body, with the given method, path, `Cookie` and
`Authorization`. -/
def plainRequest (method path : Str) (cookie authorization : Option Str) : Request :=
  { method := method, origin := "https://example.com".toList, path := path, page := none,
    cookie := cookie, authorization := authorization, contentType := none, body := emptyBody }

/-- A login `POST path` with the JSON body `{ "password": password }`. -/
def jsonLogin (path password : Str) : Request :=
  { method := "POST".toList, origin := "https://example.com".toList, path := path, page := none,
    cookie := none, authorization := none, contentType := some "application/json".toList,
    body := { form := none, json := .value (.str password) .undefined .undefined .undefined,
              text := [] } }

/-- A create request `POST path` with the JSON body `{ id, title, content }`. -/
def createRequest (path : Str) (authorization : Option Str) (id title content : JsVal) : Request :=
  { method := "POST".toList, origin := "https://example.com".toList, path := path, page := none,
    cookie := none, authorization := authorization,
    contentType := some "application/json".toList,
    body := { form := none, json := .value .undefined id title content, text := [] } }

/-- A secret of twenty characters. -/
def longSecret : Str := "aaaaaaaaaaaaaaaaaaaa".toList

/-! ## Definitions for the repository and router claims -/

/-- The announcements `getAnnouncements` materialises from a key listing: the
fetched values in listing order, a rejected or missing fetch left out. -/
def fetched (kv : KVNamespace) (keys : List Str) : List Announcement :=
  (keys.map (fun key => (kv.get key).getD none)).filterMap id

/-- A working store: none of its operations rejects. -/
def KVNamespace.working (kv : KVNamespace) : Bool :=
  !kv.listFails && kv.getFails.isEmpty && !kv.putFails && !kv.deleteFails

/-- The data model's "keyed by `id`": every stored record carries its key as
its `id`. -/
def KVNamespace.keyedById (kv : KVNamespace) : Bool :=
  kv.entries.all (fun e => e.2.id == e.1)

/-- Following the claim's words: the path is neither the base path, nor under
it, nor the logout path, compared as the router compares paths (without regard
to letter case, and to one trailing slash). -/
def isForeignPath (env : Env) (path : Str) : Bool :=
  let p := dropTrailingSlash (toLowerCase path)
  let b := dropTrailingSlash (toLowerCase (basePathOf env))
  let logout := toLowerCase (basePathOf env ++ "/logout".toList)
  p != b && !startsWith p (b ++ ['/']) &&
    toLowerCase path != logout && toLowerCase path != logout ++ ['/']

/-- A request with the given method and the JSON body `{ id, title, content }`. -/
def jsonRequest (method path : Str) (authorization : Option Str) (id title content : JsVal) :
    Request :=
  { method := method, origin := "https://example.com".toList, path := path, page := none,
    cookie := none, authorization := authorization,
    contentType := some "application/json".toList,
    body := { form := none, json := .value .undefined id title content, text := [] } }

/-- A working namespace with three announcements `a1`, `a2`, `a3`. -/
def pagedStore : KVNamespace :=
  { entries :=
      [("a1".toList, sampleAnnouncement),
       ("a2".toList, { sampleAnnouncement with id := "a2".toList }),
       ("a3".toList, { sampleAnnouncement with id := "a3".toList })]
    listFails := false, getFails := [], putFails := false, deleteFails := false }

/-- An environment with the base path `/nav`, the API token `tok`, no secret,
and the given namespace. -/
def storeEnv (kv : KVNamespace) : Env :=
  { AUTH_KEY := none, PW := none, API_TOKEN := some "tok".toList,
    HOME_URL := some "/nav".toList, KV := some kv }

/-- A namespace whose key listing rejects, while its other operations work. -/
def failingListStore : KVNamespace :=
  { entries := [("a1".toList, sampleAnnouncement)], listFails := true, getFails := [],
    putFails := false, deleteFails := false }

/-- The store with `a1`, `a2`, `a3` in which the fetch of `a2` rejects. -/
def flakyStore : KVNamespace :=
  { pagedStore with getFails := ["a2".toList] }

/-- An environment with the base path `/nav`, the API token `tok`, no secret,
and no namespace bound. -/
def noStoreEnv : Env :=
  { AUTH_KEY := none, PW := none, API_TOKEN := some "tok".toList,
    HOME_URL := some "/nav".toList, KV := none }

/-! ## Strings: lemmas -/

theorem startsWith_append (p r : Str) : startsWith (p ++ r) p = true := by
  induction p with
  | nil => cases r <;> rfl
  | cons c cs ih => simp [startsWith, ih]

theorem startsWith_iff (s p : Str) : startsWith s p = true ↔ ∃ r, s = p ++ r := by
  induction p generalizing s with
  | nil => cases s <;> simp [startsWith]
  | cons c cs ih =>
    cases s with
    | nil => simp [startsWith]
    | cons d ds =>
      simp only [startsWith, Bool.and_eq_true, beq_iff_eq, ih, List.cons_append, List.cons.injEq]
      constructor
      · rintro ⟨rfl, r, rfl⟩; exact ⟨r, rfl, rfl⟩
      · rintro ⟨r, rfl, rfl⟩; exact ⟨rfl, r, rfl⟩

theorem includes_iff (s p : Str) : includes s p = true ↔ ∃ a b, s = a ++ p ++ b := by
  induction s with
  | nil =>
    simp only [includes, startsWith_iff]
    constructor
    · rintro ⟨r, h⟩; exact ⟨[], r, by simpa using h⟩
    · rintro ⟨a, b, h⟩
      have h' := h.symm
      simp only [List.append_eq_nil, List.append_assoc] at h'
      exact ⟨[], by simp [h'.2.1]⟩
  | cons c cs ih =>
    simp only [includes, Bool.or_eq_true, startsWith_iff, ih]
    constructor
    · rintro (⟨r, h⟩ | ⟨a, b, h⟩)
      · exact ⟨[], r, by simpa using h⟩
      · exact ⟨c :: a, b, by simp [h]⟩
    · rintro ⟨a, b, h⟩
      cases a with
      | nil => left; exact ⟨b, by simpa using h⟩
      | cons d a' =>
        right
        simp only [List.cons_append, List.cons.injEq] at h
        exact ⟨a', b, h.2⟩

theorem split_of_not_mem (sep : Char) (s : Str) (h : sep ∉ s) : split sep s = [s] := by
  induction s with
  | nil => rfl
  | cons c cs ih =>
    have hc : c ≠ sep := fun e => h (by simp [e])
    have hcs : sep ∉ cs := fun e => h (by simp [e])
    simp [split, hc, ih hcs]

theorem split_cons_ne (sep c : Char) (cs : Str) (hc : c ≠ sep) (seg : Str) (rest : List Str)
    (h : split sep cs = seg :: rest) : split sep (c :: cs) = (c :: seg) :: rest := by
  rw [split, if_neg hc, h]

theorem split_append_sep (sep : Char) (pfx s : Str) :
    ∃ seg l, split sep (pfx ++ sep :: s) = seg :: (l ++ split sep s) := by
  induction pfx with
  | nil => exact ⟨[], [], by simp [split]⟩
  | cons c cs ih =>
    obtain ⟨seg, l, hl⟩ := ih
    by_cases hc : c = sep
    · refine ⟨[], seg :: l, ?_⟩
      rw [List.cons_append, split, if_pos hc, hl]
      rfl
    · exact ⟨c :: seg, l, by rw [List.cons_append]; exact split_cons_ne sep c _ hc seg _ hl⟩

/-- The last segment of a path that ends in `/` followed by a text without `/`
is that text. -/
theorem lastSegment_append (pfx i : Str) (h : '/' ∉ i) : lastSegment (pfx ++ '/' :: i) = i := by
  obtain ⟨seg, l, hl⟩ := split_append_sep '/' pfx i
  unfold lastSegment
  rw [hl, split_of_not_mem '/' i h]
  have : seg :: (l ++ [i]) = (seg :: l) ++ [i] := rfl
  rw [this, List.getLast?_append]
  rfl

/-! ## The patterns `lit([^stop]+)`: lemmas -/

theorem takeWhile_stop (stop : Char) (v post : Str) (hv : stop ∉ v)
    (hpost : post = [] ∨ ∃ r, post = stop :: r) :
    (v ++ post).takeWhile (fun c => c != stop) = v := by
  induction v with
  | nil =>
    rcases hpost with rfl | ⟨r, rfl⟩
    · rfl
    · simp [List.takeWhile]
  | cons c cs ih =>
    have hc : c ≠ stop := fun h => hv (by simp [h])
    have hcs : stop ∉ cs := fun h => hv (by simp [h])
    have hb : (c != stop) = true := by simp [hc]
    simp [List.takeWhile, hb, ih hcs]

theorem reAt_append (lit : Str) (stop : Char) (v post : Str) (hne : v ≠ []) (hv : stop ∉ v)
    (hpost : post = [] ∨ ∃ r, post = stop :: r) :
    reAt lit stop (lit ++ (v ++ post)) = some v := by
  unfold reAt
  rw [startsWith_append]
  simp only [if_true, List.drop_left, takeWhile_stop stop v post hv hpost]
  cases v with
  | nil => exact absurd rfl hne
  | cons c cs => rfl

theorem reAt_some (lit : Str) (stop : Char) (s cap : Str) (h : reAt lit stop s = some cap) :
    ∃ rest, s = lit ++ rest ∧ cap = rest.takeWhile (fun c => c != stop) ∧ cap ≠ [] := by
  unfold reAt at h
  split at h
  · next hs =>
    obtain ⟨r, rfl⟩ := (startsWith_iff s lit).1 hs
    simp only [List.drop_left] at h
    split at h
    · exact absurd h (by simp)
    · next c cs heq =>
      refine ⟨r, rfl, ?_, ?_⟩
      · rw [heq]; exact (Option.some.inj h).symm
      · rw [← Option.some.inj h]; simp
  · exact absurd h (by simp)

/-- A match of the unanchored pattern starts at some occurrence of the literal
and captures the run up to the next `stop`. -/
theorem reMatch_some (lit : Str) (stop : Char) (s cap : Str) (h : reMatch lit stop s = some cap) :
    ∃ pre rest, s = pre ++ (lit ++ rest) ∧ cap = rest.takeWhile (fun c => c != stop) ∧
      cap ≠ [] := by
  induction s with
  | nil =>
    obtain ⟨rest, h1, h2, h3⟩ := reAt_some lit stop [] cap h
    exact ⟨[], rest, h1, h2, h3⟩
  | cons c cs ih =>
    unfold reMatch at h
    split at h
    · next cap' hcap =>
      obtain ⟨rest, h1, h2, h3⟩ := reAt_some lit stop (c :: cs) cap' hcap
      cases Option.some.inj h
      exact ⟨[], rest, h1, h2, h3⟩
    · obtain ⟨pre, rest, h1, h2, h3⟩ := ih h
      exact ⟨c :: pre, rest, by simp [h1], h2, h3⟩

/-- Where the unanchored pattern finds nothing, the pattern with `\b` finds
nothing either: the third attempt of `cookieValueOf` never succeeds. -/
theorem reMatchB_none (lit : Str) (stop : Char) (prev : Option Char) (s : Str)
    (h : reMatch lit stop s = none) : reMatchB lit stop prev s = none := by
  induction s generalizing prev with
  | nil =>
    unfold reMatch at h
    unfold reMatchB
    split <;> simp [h]
  | cons c cs ih =>
    unfold reMatch at h
    split at h
    · exact absurd h (by simp)
    · next hnone =>
      unfold reMatchB
      split
      · next cap hcap =>
        split at hcap
        · rw [hnone] at hcap; exact absurd hcap (by simp)
        · exact absurd hcap (by simp)
      · exact ih (some c) h

theorem reMatch_of_reAt (lit : Str) (stop : Char) (s cap : Str)
    (h : reAt lit stop s = some cap) : reMatch lit stop s = some cap := by
  cases s with
  | nil => exact h
  | cons c cs => rw [reMatch, h]

theorem reMatch_cons_of_reAt_none (lit : Str) (stop : Char) (c : Char) (cs : Str)
    (h : reAt lit stop (c :: cs) = none) : reMatch lit stop (c :: cs) = reMatch lit stop cs := by
  rw [reMatch, h]

theorem cookieLit_eq : COOKIE_NAME ++ ['='] = ['t', 'o', 'k', 'e', 'n', '='] := rfl

theorem reAt_cookie_none (pre rest : Str) (hpre : pre ≠ [])
    (h : ∀ b, pre = COOKIE_NAME ++ ['='] ++ b → ∃ b', b = ';' :: b') :
    reAt (COOKIE_NAME ++ ['=']) ';' (pre ++ (COOKIE_NAME ++ ['='] ++ rest)) = none := by
  cases hr : reAt (COOKIE_NAME ++ ['=']) ';' (pre ++ (COOKIE_NAME ++ ['='] ++ rest)) with
  | none => rfl
  | some cap =>
    exfalso
    obtain ⟨r, h1, h2, h3⟩ := reAt_some _ _ _ _ hr
    rw [cookieLit_eq] at h1 h
    rcases pre with _ | ⟨c1, _ | ⟨c2, _ | ⟨c3, _ | ⟨c4, _ | ⟨c5, _ | ⟨c6, pre6⟩⟩⟩⟩⟩⟩
    · exact hpre rfl
    · simp at h1
    · simp at h1
    · simp at h1
    · simp at h1
    · simp at h1
    · simp only [List.cons_append, List.cons.injEq] at h1
      obtain ⟨rfl, rfl, rfl, rfl, rfl, rfl, h1⟩ := h1
      obtain ⟨b', hb⟩ := h pre6 rfl
      subst hb
      subst h1
      apply h3
      rw [h2]
      simp [List.takeWhile]

theorem reMatch_cookie_skip (pre rest : Str)
    (h : ∀ a b, pre = a ++ (COOKIE_NAME ++ ['='] ++ b) → ∃ b', b = ';' :: b') :
    reMatch (COOKIE_NAME ++ ['=']) ';' (pre ++ (COOKIE_NAME ++ ['='] ++ rest)) =
      reMatch (COOKIE_NAME ++ ['=']) ';' (COOKIE_NAME ++ ['='] ++ rest) := by
  induction pre with
  | nil => rfl
  | cons c cs ih =>
    have hnone := reAt_cookie_none (c :: cs) rest (by simp) (fun b hb => h [] b (by simpa using hb))
    have hrec := ih (fun a b hab => h (c :: a) b (by simp [hab]))
    rw [← hrec]
    exact reMatch_cons_of_reAt_none _ _ c _ hnone

/-- The first pattern of `cookieValueOf` captures the value of `token=value`
when every earlier `token=` is directly followed by `;`. -/
theorem reMatch_cookie (pre v post : Str) (hne : v ≠ []) (hv : ';' ∉ v)
    (hpost : post = [] ∨ ∃ r, post = ';' :: r)
    (h : ∀ a b, pre = a ++ (COOKIE_NAME ++ ['='] ++ b) → ∃ b', b = ';' :: b') :
    reMatch (COOKIE_NAME ++ ['=']) ';' (pre ++ (COOKIE_NAME ++ ['='] ++ (v ++ post))) = some v := by
  rw [reMatch_cookie_skip pre _ h]
  exact reMatch_of_reAt _ _ _ _ (reAt_append (COOKIE_NAME ++ ['=']) ';' v post hne hv hpost)

/-! ## `verifyPassword` -/

theorem headerOr_getD (h : Option Str) (c : Str) (hc : h = some c) :
    (jsOr h (some [])).getD [] = c := by
  subst hc
  cases c <;> rfl

theorem headerOr_none : (jsOr none (some [])).getD [] = ([] : Str) := rfl

theorem secret_guard (env : Env) (s : Str) (hsecret : jsOr env.AUTH_KEY env.PW = some s)
    (hne : s ≠ []) : (!truthy env.AUTH_KEY && !truthy env.PW) = false := by
  unfold jsOr at hsecret
  by_cases h1 : truthy env.AUTH_KEY = true
  · simp [h1]
  · rw [if_neg h1] at hsecret
    have h2 : truthy env.PW = true := by
      rw [hsecret]
      cases s with
      | nil => exact absurd rfl hne
      | cons c cs => rfl
    simp [h2]

/-- With the secret `s` configured, `verifyPassword` compares the cookie value
with `s`. -/
theorem verifyPassword_eq (request : Request) (env : Env) (s : Str)
    (hsecret : jsOr env.AUTH_KEY env.PW = some s) (hne : s ≠ []) :
    verifyPassword request env =
      (cookieValueOf ((jsOr request.cookie (some [])).getD []) == s) := by
  unfold verifyPassword
  rw [secret_guard env s hsecret hne, hsecret]
  simp

theorem cookieValueOf_some (cookie s : Str) (hne : s ≠ []) (h : cookieValueOf cookie = s) :
    ∃ pre rest, cookie = pre ++ (COOKIE_NAME ++ ['='] ++ rest) ∧
      (trim (rest.takeWhile (fun c => c != ';')) = s ∨ (pre = [] ∧ trim rest = s)) := by
  unfold cookieValueOf at h
  split at h
  · next cap hcap =>
    obtain ⟨pre, rest, h1, h2, _⟩ := reMatch_some _ _ _ _ hcap
    exact ⟨pre, rest, h1, Or.inl (by rw [← h2]; exact h)⟩
  · next hnone =>
    split at h
    · next hs =>
      obtain ⟨r, rfl⟩ := (startsWith_iff _ _).1 hs
      refine ⟨[], r, rfl, Or.inr ⟨rfl, ?_⟩⟩
      rw [← h]
      rfl
    · rw [reMatchB_none _ _ _ _ hnone] at h
      exact absurd h.symm hne

/-- The cookie `token=s` is accepted, alone, before other cookies or after other
text, when every `token=` in the text before it is directly followed by `;`. -/
theorem verifyPassword_accepts_token_cookie (request : Request) (env : Env) (s pre post : Str)
    (hsecret : jsOr env.AUTH_KEY env.PW = some s) (hne : s ≠ []) (hsemi : ';' ∉ s)
    (htrim : trim s = s)
    (hpost : post = [] ∨ ∃ r, post = ';' :: r)
    (hpre : ∀ a b, pre = a ++ (COOKIE_NAME ++ ['='] ++ b) → ∃ b', b = ';' :: b')
    (hcookie : request.cookie = some (pre ++ (COOKIE_NAME ++ ['='] ++ (s ++ post)))) :
    verifyPassword request env = true := by
  rw [verifyPassword_eq request env s hsecret hne, headerOr_getD _ _ hcookie]
  unfold cookieValueOf
  rw [reMatch_cookie pre s post hne hsemi hpost hpre]
  simp [htrim]

/-- The acceptance lemma at the header `a=b; token=abc; c=d`. -/
theorem verifyPassword_accepts_mid_string :
    verifyPassword (cookieRequest (some "a=b; token=abc; c=d".toList)) (secretEnv "abc".toList)
      = true :=
  verifyPassword_accepts_token_cookie _ _ "abc".toList "a=b; ".toList "; c=d".toList
    rfl (by decide) (by decide) (by decide) (Or.inr ⟨" c=d".toList, rfl⟩)
    (fun a b h => absurd
      ((includes_iff "a=b; ".toList (COOKIE_NAME ++ ['='])).2 ⟨a, b, by rw [h]; simp⟩)
      (by decide))
    rfl

/-- C1, on the code: with the secret `abc`, the header `csrftoken=zzz; token=abc`
holds the cookie named `token` with the value `abc` after another cookie, and
`verifyPassword` returns false. The first pattern `token=([^;]+)` matches inside
`csrftoken=zzz` and captures `zzz`; the pattern with `\b`, which would capture
`abc`, is never tried. -/
theorem verifyPassword_rejects_after_csrftoken :
    (cookiePairs "csrftoken=zzz; token=abc".toList).contains ("token".toList, "abc".toList)
      = true ∧
    reMatch (COOKIE_NAME ++ ['=']) ';' "csrftoken=zzz; token=abc".toList = some "zzz".toList ∧
    reMatchB (COOKIE_NAME ++ ['=']) ';' none "csrftoken=zzz; token=abc".toList
      = some "abc".toList ∧
    verifyPassword (cookieRequest (some "csrftoken=zzz; token=abc".toList))
      (secretEnv "abc".toList) = false := by
  decide

/-- C2, as amended: with a secret `s` configured, `verifyPassword` returns true
only if the `Cookie` header contains the text `token=` followed by a value (the
run up to the next `;`) whose trimmed form is `s`, or starts with `token=` and
the trimmed remainder is `s`. An absent or empty header is denied, and so is
every header that does not contain the text `token=`. -/
theorem verifyPassword_only_if (request : Request) (env : Env) (s : Str)
    (hsecret : jsOr env.AUTH_KEY env.PW = some s) (hne : s ≠ []) :
    (verifyPassword request env = true →
      ∃ pre rest, request.cookie = some (pre ++ (COOKIE_NAME ++ ['='] ++ rest)) ∧
        (trim (rest.takeWhile (fun c => c != ';')) = s ∨ (pre = [] ∧ trim rest = s))) ∧
    (request.cookie = none ∨ request.cookie = some [] → verifyPassword request env = false) ∧
    (∀ c, request.cookie = some c → includes c (COOKIE_NAME ++ ['=']) = false →
      verifyPassword request env = false) := by
  have key : verifyPassword request env = true →
      ∃ pre rest, request.cookie = some (pre ++ (COOKIE_NAME ++ ['='] ++ rest)) ∧
        (trim (rest.takeWhile (fun c => c != ';')) = s ∨ (pre = [] ∧ trim rest = s)) := by
    intro hv
    rw [verifyPassword_eq request env s hsecret hne] at hv
    have hv' := beq_iff_eq.1 hv
    obtain ⟨pre, rest, h1, h2⟩ := cookieValueOf_some _ s hne hv'
    cases hc : request.cookie with
    | none =>
      rw [hc, headerOr_none] at h1
      exact absurd h1 (by simp [COOKIE_NAME])
    | some c =>
      rw [headerOr_getD _ c hc] at h1
      exact ⟨pre, rest, by rw [h1], h2⟩
  refine ⟨key, ?_, ?_⟩
  · intro h
    cases hv : verifyPassword request env with
    | false => rfl
    | true =>
      obtain ⟨pre, rest, h1, _⟩ := key hv
      rcases h with h | h
      · rw [h] at h1; exact absurd h1 (by simp)
      · rw [h] at h1
        exact absurd (Option.some.inj h1) (by simp [COOKIE_NAME])
  · intro c hc hinc
    cases hv : verifyPassword request env with
    | false => rfl
    | true =>
      obtain ⟨pre, rest, h1, _⟩ := key hv
      rw [hc] at h1
      have : includes c (COOKIE_NAME ++ ['=']) = true :=
        (includes_iff _ _).2 ⟨pre, rest, by rw [Option.some.inj h1]; simp⟩
      rw [hinc] at this
      exact absurd this (by simp)

/-- The theorem `verifyPassword_only_if` at the secret `abc`: a header without
the text `token=`, in which another cookie carries the secret, is denied. -/
theorem verifyPassword_only_if_witness :
    verifyPassword (cookieRequest (some "session=abc; theme=dark".toList))
      (secretEnv "abc".toList) = false :=
  (verifyPassword_only_if (cookieRequest (some "session=abc; theme=dark".toList))
    (secretEnv "abc".toList) "abc".toList rfl (by decide)).2.2
      "session=abc; theme=dark".toList rfl (by decide)

/-- C2, as stated, fails: with the secret `abc`, the header `x-token=abc` has no
cookie named `token` (its only cookie is named `x-token`), and `verifyPassword`
returns true. -/
theorem verifyPassword_accepts_other_name :
    (cookiePairs "x-token=abc".toList).all (fun p => p.1 != "token".toList) = true ∧
    verifyPassword (cookieRequest (some "x-token=abc".toList)) (secretEnv "abc".toList)
      = true := by
  decide

/-! ## `handleAuth` -/

/-- On a path that `handleAuth` takes for an API path, the API token alone
decides. -/
theorem handleAuth_api_path (rt : Runtime) (request : Request) (env : Env)
    (h : isApiPath env request.path = true) :
    handleAuth rt request env =
      if verifyApiToken request env then none
      else some (authJson 401 (.error "认证失败，请提供有效的API Token")) := by
  unfold handleAuth
  simp [h]

/-- C3, on the code: requests that `handleRequest` dispatches to the JSON API and
that `handleAuth` lets through without the API token. With no base path
configured, `GET /api/announcements` is the API list route, but `handleAuth`
tests the path against `//api/`, falls back to the cookie check and allows the
request on the session cookie alone; with no secret either, it allows a create
request that carries no credential at all. With the base path `/nav`, the same
happens for `GET /nav/API/announcements`, which the router matches without
regard to case. -/
theorem api_route_allowed_without_token :
    (route (apiEnv none (some "pw".toList)) "GET".toList "/api/announcements".toList = .apiList ∧
     verifyApiToken
       (plainRequest "GET".toList "/api/announcements".toList (some "token=pw".toList) none)
       (apiEnv none (some "pw".toList)) = false ∧
     handleAuth exampleRuntime
       (plainRequest "GET".toList "/api/announcements".toList (some "token=pw".toList) none)
       (apiEnv none (some "pw".toList)) = none ∧
     (handleRequest exampleRuntime
       (plainRequest "GET".toList "/api/announcements".toList (some "token=pw".toList) none)
       (apiEnv none (some "pw".toList))).1.status = 200) ∧
    (route (apiEnv none none) "POST".toList "/api/announcements".toList = .apiCreate ∧
     handleAuth exampleRuntime
       (createRequest "/api/announcements".toList none .undefined (.str "A".toList)
         (.str "B".toList))
       (apiEnv none none) = none) ∧
    (route (apiEnv (some "/nav".toList) (some "pw".toList)) "GET".toList
       "/nav/API/announcements".toList = .apiList ∧
     handleAuth exampleRuntime
       (plainRequest "GET".toList "/nav/API/announcements".toList (some "token=pw".toList) none)
       (apiEnv (some "/nav".toList) (some "pw".toList)) = none) := by
  decide

/-- C4, as amended: with no shared secret configured, `handleAuth` allows every
request whose path it does not take for an API path; on an API path (one that
starts with the base path followed by `/api/`) the API token decides, and the
request is allowed exactly when `verifyApiToken` accepts it. -/
theorem handleAuth_no_secret (rt : Runtime) (request : Request) (env : Env)
    (hkey : truthy env.AUTH_KEY = false) (hpw : truthy env.PW = false) :
    (isApiPath env request.path = false → handleAuth rt request env = none) ∧
    (isApiPath env request.path = true →
      (verifyApiToken request env = true → handleAuth rt request env = none) ∧
      (verifyApiToken request env = false →
        handleAuth rt request env =
          some (authJson 401 (.error "认证失败，请提供有效的API Token")))) := by
  constructor
  · intro h
    unfold handleAuth verifyPassword
    simp [h, hkey, hpw]
  · intro h
    rw [handleAuth_api_path rt request env h]
    constructor <;> intro hv <;> simp [hv]

/-- The theorem `handleAuth_no_secret` at `GET /nav/admin` without credentials. -/
theorem handleAuth_no_secret_witness :
    handleAuth exampleRuntime (plainRequest "GET".toList "/nav/admin".toList none none)
      (apiEnv (some "/nav".toList) none) = none :=
  (handleAuth_no_secret exampleRuntime (plainRequest "GET".toList "/nav/admin".toList none none)
    (apiEnv (some "/nav".toList) none) rfl rfl).1 (by decide)

/-- C4, as stated, fails: with neither `AUTH_KEY` nor `PW` set and the base path
`/nav`, `GET /nav/api/announcements` without an `Authorization` header is denied
with the JSON 401 response. -/
theorem handleAuth_no_secret_api_denied :
    truthy (apiEnv (some "/nav".toList) none).AUTH_KEY = false ∧
    truthy (apiEnv (some "/nav".toList) none).PW = false ∧
    handleAuth exampleRuntime
      (plainRequest "GET".toList "/nav/api/announcements".toList none none)
      (apiEnv (some "/nav".toList) none) =
        some (authJson 401 (.error "认证失败，请提供有效的API Token")) := by
  decide

/-! ## The session cookie -/

/-- For a secret of length 20 or more the issued token is the random UUID, and
the cookie that carries it is rejected unless the UUID happens to be the secret. -/
theorem sessionToken_long_secret_rejected (rt : Runtime) (request : Request) (env : Env) (s : Str)
    (hsecret : jsOr env.AUTH_KEY env.PW = some s) (hlen : 20 ≤ jsLength s)
    (hne : rt.randomUUID ≠ []) (hsemi : ';' ∉ rt.randomUUID)
    (htrim : trim rt.randomUUID = rt.randomUUID) (hu : rt.randomUUID ≠ s)
    (hcookie : request.cookie = some (COOKIE_NAME ++ ['='] ++ sessionToken rt (some s))) :
    verifyPassword request env = false := by
  have hs : s ≠ [] := by
    intro h
    rw [h] at hlen
    exact absurd hlen (by decide)
  have htok : sessionToken rt (some s) = rt.randomUUID := by
    unfold sessionToken
    simp [Nat.not_lt.2 hlen]
  rw [htok] at hcookie
  rw [verifyPassword_eq request env s hsecret hs, headerOr_getD _ _ hcookie]
  unfold cookieValueOf
  have hm := reMatch_cookie [] rt.randomUUID [] hne hsemi (Or.inl rfl)
    (fun a b h => absurd h (by simp [COOKIE_NAME]))
  simp only [List.append_nil, List.nil_append] at hm
  rw [hm]
  simp only [htrim]
  simpa using hu

/-- C5, on the code: with the twenty-character secret `aaaaaaaaaaaaaaaaaaaa`, a
login with the right password answers with `createAuthRedirect`, whose
`Set-Cookie` carries the random UUID, not the secret; sent back as
`Cookie: token=<uuid>`, that token is rejected by `verifyPassword`. -/
theorem issued_token_rejected_for_long_secret :
    jsLength longSecret = 20 ∧
    handleAuth exampleRuntime (jsonLogin "/nav".toList longSecret) (secretEnv longSecret) =
      some (createAuthRedirect exampleRuntime "https://example.com/nav".toList
        (some longSecret)) ∧
    (createAuthRedirect exampleRuntime "https://example.com/nav".toList
        (some longSecret)).header "Set-Cookie" =
      some ("token=123e4567-e89b-42d3-a456-426614174000".toList ++
        "; HttpOnly; SameSite=Strict; Path=/; Max-Age=604800".toList) ∧
    verifyPassword (cookieRequest (some "token=123e4567-e89b-42d3-a456-426614174000".toList))
      (secretEnv longSecret) = false := by
  decide

/-- C6, on the code: with the secret `secret123` and no base path configured, a
`POST /api/login` whose JSON password is the secret selects no route, and
`handleRequest` answers 204 with no body and no `Set-Cookie` header, the
environment unchanged. Under the base path `/nav` the same login at
`/nav/api/login` is answered 204 too, and at `/api/login` 403. The API login of
`handleAuth` is reached only under a base path that contains `/api/login`: then
the answer is the 200 JSON body `{ success: true }`, without a `Set-Cookie`
header. The same login on the page path `/nav` is answered 302 and sets the
session cookie. -/
theorem api_login_not_routed :
    route { secretEnv "secret123".toList with HOME_URL := none } "POST".toList
      "/api/login".toList = .noMatch ∧
    handleRequest exampleRuntime (jsonLogin "/api/login".toList "secret123".toList)
        { secretEnv "secret123".toList with HOME_URL := none } =
      (createNoCacheResponse .null 204 [],
        { secretEnv "secret123".toList with HOME_URL := none }) ∧
    (createNoCacheResponse .null 204 []).header "Set-Cookie" = none ∧
    (handleRequest exampleRuntime (jsonLogin "/nav/api/login".toList "secret123".toList)
        (secretEnv "secret123".toList)).1 = createNoCacheResponse .null 204 [] ∧
    (handleRequest exampleRuntime (jsonLogin "/api/login".toList "secret123".toList)
        (secretEnv "secret123".toList)).1.status = 403 ∧
    (handleRequest exampleRuntime (jsonLogin "/api/login".toList "secret123".toList)
        { secretEnv "secret123".toList with HOME_URL := some "/api/login".toList }).1 =
      authJson 200 .success ∧
    (authJson 200 .success).header "Set-Cookie" = none ∧
    (handleRequest exampleRuntime (jsonLogin "/nav".toList "secret123".toList)
        (secretEnv "secret123".toList)).1.status = 302 ∧
    (handleRequest exampleRuntime (jsonLogin "/nav".toList "secret123".toList)
        (secretEnv "secret123".toList)).1.header "Set-Cookie" =
      some ("token=secret123".toList ++
        "; HttpOnly; SameSite=Strict; Path=/; Max-Age=604800".toList) := by
  decide

/-! ## `verifyApiToken` -/

/-- C7, as amended: for every configured API token `t` without leading or
trailing whitespace, `verifyApiToken` accepts the header `Bearer t`, and it
accepts the raw header `t` when `t` does not itself start with `Bearer `. -/
theorem verifyApiToken_accepts (request : Request) (env : Env) (t : Str)
    (htoken : env.API_TOKEN = some t) (hne : t ≠ []) (htrim : trim t = t) :
    (request.authorization = some ("Bearer ".toList ++ t) → verifyApiToken request env = true) ∧
    (request.authorization = some t → startsWith t "Bearer ".toList = false →
      verifyApiToken request env = true) := by
  have hguard : truthy (some t) = true := by
    cases t with
    | nil => exact absurd rfl hne
    | cons c cs => rfl
  constructor
  · intro ha
    unfold verifyApiToken
    rw [ha, htoken, hguard]
    have h1 : (jsOr (some ("Bearer ".toList ++ t)) (some [])).getD [] = "Bearer ".toList ++ t := rfl
    have h2 : ("Bearer ".toList ++ t).drop 7 = t := rfl
    simp only [h1, startsWith_append, h2, htrim]
    simp
  · intro ha hb
    unfold verifyApiToken
    rw [ha, htoken, hguard]
    have h1 : (jsOr (some t) (some [])).getD [] = t := by cases t <;> rfl
    simp only [h1, hb, htrim]
    simp

/-- The theorem `verifyApiToken_accepts` at the token `tok`. -/
theorem verifyApiToken_accepts_witness :
    verifyApiToken (plainRequest "GET".toList "/nav/api/announcements".toList none
        (some "Bearer tok".toList)) (apiEnv (some "/nav".toList) none) = true ∧
    verifyApiToken (plainRequest "GET".toList "/nav/api/announcements".toList none
        (some "tok".toList)) (apiEnv (some "/nav".toList) none) = true :=
  ⟨(verifyApiToken_accepts _ (apiEnv (some "/nav".toList) none) "tok".toList rfl (by decide)
      (by decide)).1 rfl,
   (verifyApiToken_accepts _ (apiEnv (some "/nav".toList) none) "tok".toList rfl (by decide)
      (by decide)).2 rfl (by decide)⟩

/-- C7, as stated, fails: the configured token `Bearer x` is rejected when sent
as the raw header `Bearer x`, and the configured token ` x` (with a leading
blank) is rejected when sent as `Bearer  x`. -/
theorem verifyApiToken_rejects_configured_token :
    verifyApiToken
      (plainRequest "GET".toList "/nav/api/announcements".toList none (some "Bearer x".toList))
      { apiEnv (some "/nav".toList) none with API_TOKEN := some "Bearer x".toList } = false ∧
    verifyApiToken
      (plainRequest "GET".toList "/nav/api/announcements".toList none
        (some ("Bearer ".toList ++ " x".toList)))
      { apiEnv (some "/nav".toList) none with API_TOKEN := some " x".toList } = false := by
  decide

/-! ## Create and get -/

theorem lookupKey_upsert_self (key : Str) (a : Announcement) (l : List (Str × Announcement)) :
    lookupKey key (upsert key a l) = some a := by
  induction l with
  | nil => simp [upsert, lookupKey]
  | cons e rest ih =>
    obtain ⟨k, v⟩ := e
    by_cases h : k = key
    · simp [upsert, lookupKey, h]
    · simp [upsert, lookupKey, h, ih]

theorem handleRequest_apiCreate (rt : Runtime) (request : Request) (env : Env)
    (hroute : route env request.method request.path = .apiCreate)
    (hauth : handleAuth rt request env = none) :
    handleRequest rt request env = apiCreate rt request env := by
  unfold handleRequest
  rw [hroute]
  simp [hauth]

theorem handleRequest_apiGet (rt : Runtime) (request : Request) (env : Env)
    (hroute : route env request.method request.path = .apiGet)
    (hauth : handleAuth rt request env = none) :
    handleRequest rt request env = (apiGet request env, env) := by
  unfold handleRequest
  rw [hroute]
  simp [hauth]

/-- A create that answers `{ success: true, id: i }` has put the record with the
trimmed title and content under `i`. -/
theorem apiCreate_success (rt : Runtime) (request : Request) (env env' : Env) (resp : Response)
    (i t c : Str) (pw dataId : JsVal)
    (hbody : request.body.json = .value pw dataId (.str t) (.str c))
    (h : apiCreate rt request env = (resp, env'))
    (hok : resp.body = .json (.successId i)) :
    ∃ kv kv', env.KV = some kv ∧
      kv.put i { id := i, title := trim t, content := trim c, createdAt := rt.isoNow,
                 updatedAt := none } = some kv' ∧
      env' = { env with KV := some kv' } := by
  unfold apiCreate at h
  cases hkv : env.KV with
  | none =>
    rw [hkv] at h
    simp only [Prod.mk.injEq] at h
    rw [← h.1] at hok
    simp [apiJson, createNoCacheResponse] at hok
  | some kv =>
    rw [hkv, hbody] at h
    simp only at h
    split at h
    · simp only [Prod.mk.injEq] at h
      rw [← h.1] at hok
      simp [apiJson, createNoCacheResponse] at hok
    · split at h
      · simp only [Prod.mk.injEq] at h
        rename_i r hr
        rw [← h.1] at hok
        split at hr
        · split at hr
          · cases hr; simp [apiJson, createNoCacheResponse] at hok
          · cases hr; simp [apiJson, createNoCacheResponse] at hok
          · cases hr
        · cases hr
      · rename_i id hid
        split at h
        · simp only [Prod.mk.injEq] at h
          rw [← h.1] at hok
          simp [apiJson, createNoCacheResponse] at hok
        · rename_i kv' hput
          simp only [Prod.mk.injEq] at h
          rw [← h.1] at hok
          simp only [apiJson, createNoCacheResponse, ResBody.json.injEq,
            JsonOut.successId.injEq] at hok
          subst hok
          exact ⟨kv, kv', rfl, hput, h.2.symm⟩

/-- C8, as amended: after an authorized create with the string title `t` and
content `c` that answers `{ success: true, id: i }`, where `i` contains no `/`,
an authorized GET that is routed to the single-announcement endpoint, whose path
ends in `/` followed by `i`, and whose read of `i` does not fail, returns with
status 200 the record with id `i`, title `trim t` and content `trim c`. -/
theorem create_then_get (rt rt' : Runtime) (create get : Request) (env env' : Env)
    (resp : Response) (i t c pfx : Str) (pw dataId : JsVal)
    (hroute : route env create.method create.path = .apiCreate)
    (hauth : handleAuth rt create env = none)
    (hbody : create.body.json = .value pw dataId (.str t) (.str c))
    (hres : handleRequest rt create env = (resp, env'))
    (hok : resp.body = .json (.successId i))
    (hslash : '/' ∉ i)
    (hroute' : route env' get.method get.path = .apiGet)
    (hauth' : handleAuth rt' get env' = none)
    (hpath : get.path = pfx ++ '/' :: i)
    (hget : ∀ kv, env'.KV = some kv → i ∉ kv.getFails) :
    ∃ a, handleRequest rt' get env' = (apiJson 200 (.announcement a), env') ∧
      a.id = i ∧ a.title = trim t ∧ a.content = trim c := by
  rw [handleRequest_apiCreate rt create env hroute hauth] at hres
  obtain ⟨kv, kv', _, hput, henv⟩ :=
    apiCreate_success rt create env env' resp i t c pw dataId hbody hres hok
  rw [handleRequest_apiGet rt' get env' hroute' hauth']
  have hkv' : env'.KV = some kv' := by rw [henv]
  have hfail := hget kv' hkv'
  unfold KVNamespace.put at hput
  split at hput
  · exact absurd hput (by simp)
  · have hk := (Option.some.inj hput).symm
    refine ⟨{ id := i, title := trim t, content := trim c, createdAt := rt.isoNow,
              updatedAt := none }, ?_, rfl, rfl, rfl⟩
    unfold apiGet
    rw [hpath, lastSegment_append pfx i hslash, hkv']
    simp only
    unfold KVNamespace.get
    rw [if_neg hfail, hk]
    simp only [lookupKey_upsert_self]

/-- The theorem `create_then_get` at a create with the id `n1`, the title ` A `
and the content `B`, followed by `GET /nav/api/announcements/n1`. -/
theorem create_then_get_witness :
    ∃ a, handleRequest exampleRuntime
        (plainRequest "GET".toList "/nav/api/announcements/n1".toList none
          (some "Bearer tok".toList))
        (handleRequest exampleRuntime
          (createRequest "/nav/api/announcements".toList (some "Bearer tok".toList)
            (.str "n1".toList) (.str " A ".toList) (.str "B".toList))
          (apiEnv (some "/nav".toList) none)).2 =
      (apiJson 200 (.announcement a),
        (handleRequest exampleRuntime
          (createRequest "/nav/api/announcements".toList (some "Bearer tok".toList)
            (.str "n1".toList) (.str " A ".toList) (.str "B".toList))
          (apiEnv (some "/nav".toList) none)).2) ∧
      a.id = "n1".toList ∧ a.title = trim " A ".toList ∧ a.content = trim "B".toList :=
  create_then_get exampleRuntime exampleRuntime
    (createRequest "/nav/api/announcements".toList (some "Bearer tok".toList)
      (.str "n1".toList) (.str " A ".toList) (.str "B".toList))
    (plainRequest "GET".toList "/nav/api/announcements/n1".toList none (some "Bearer tok".toList))
    (apiEnv (some "/nav".toList) none) _ _ "n1".toList " A ".toList "B".toList
    "/nav/api/announcements".toList .undefined (.str "n1".toList)
    (by decide) (by decide) rfl rfl (by decide) (by decide) (by decide) (by decide) (by decide)
    (by decide)

/-- C8, as stated, fails: a create with the title ` A` (a leading blank) and the
id `n1` succeeds, and the following GET of `n1` returns the title `A`, not ` A`;
a create with the id `x/y` succeeds and returns that id, and the following GET
of `/nav/api/announcements/x/y` answers 404. -/
theorem create_then_get_not_verbatim :
    ((handleRequest exampleRuntime
        (plainRequest "GET".toList "/nav/api/announcements/n1".toList none
          (some "Bearer tok".toList))
        (handleRequest exampleRuntime
          (createRequest "/nav/api/announcements".toList (some "Bearer tok".toList)
            (.str "n1".toList) (.str " A".toList) (.str "B".toList))
          (apiEnv (some "/nav".toList) none)).2).1.body =
      .json (.announcement { id := "n1".toList, title := "A".toList, content := "B".toList,
                             createdAt := exampleRuntime.isoNow, updatedAt := none })) ∧
    ((handleRequest exampleRuntime
          (createRequest "/nav/api/announcements".toList (some "Bearer tok".toList)
            (.str "x/y".toList) (.str "A".toList) (.str "B".toList))
          (apiEnv (some "/nav".toList) none)).1.body = .json (.successId "x/y".toList) ∧
     (handleRequest exampleRuntime
        (plainRequest "GET".toList "/nav/api/announcements/x/y".toList none
          (some "Bearer tok".toList))
        (handleRequest exampleRuntime
          (createRequest "/nav/api/announcements".toList (some "Bearer tok".toList)
            (.str "x/y".toList) (.str "A".toList) (.str "B".toList))
          (apiEnv (some "/nav".toList) none)).2).1.status = 404) := by
  decide

/-- C9: an authorized create whose id (the trimmed, non-blank string `data.id`)
is the key of an existing record leaves the environment, and so the store,
unchanged; when the existence check does not fail, the response is a 400 with an
error body: the conflict error, or the validation error when the title or the
content is empty, and the conflict error whenever both are given. -/
theorem create_duplicate_id_conflict (rt : Runtime) (request : Request) (env : Env)
    (kv : KVNamespace) (id : Str) (existing : Announcement)
    (pw dataId dataTitle dataContent : JsVal)
    (hroute : route env request.method request.path = .apiCreate)
    (hauth : handleAuth rt request env = none)
    (hkv : env.KV = some kv)
    (hbody : request.body.json = .value pw dataId dataTitle dataContent)
    (hid : customId dataId = some id)
    (hexists : lookupKey id kv.entries = some existing) :
    (handleRequest rt request env).2 = env ∧
    (id ∉ kv.getFails →
      ((handleRequest rt request env).1 = apiJson 400 (.idExists id) ∨
       (handleRequest rt request env).1 = apiJson 400 (.error "标题和内容不能为空")) ∧
      (dataTitle.truthy = true → dataContent.truthy = true →
        (handleRequest rt request env).1 = apiJson 400 (.idExists id))) := by
  rw [handleRequest_apiCreate rt request env hroute hauth]
  unfold apiCreate
  rw [hkv, hbody]
  simp only [hid]
  by_cases hv : (!dataTitle.truthy || !dataContent.truthy) = true
  · rw [if_pos hv]
    refine ⟨rfl, fun _ => ⟨Or.inr rfl, ?_⟩⟩
    intro h1 h2
    rw [h1, h2] at hv
    exact absurd hv (by decide)
  · rw [if_neg hv]
    by_cases hf : id ∈ kv.getFails
    · have hg : kv.get id = none := by unfold KVNamespace.get; rw [if_pos hf]
      rw [hg]
      exact ⟨rfl, fun h => absurd hf h⟩
    · have hg : kv.get id = some (some existing) := by
        unfold KVNamespace.get; rw [if_neg hf, hexists]
      rw [hg]
      exact ⟨rfl, fun _ => ⟨Or.inl rfl, fun _ _ => rfl⟩⟩

/-- The theorem `create_duplicate_id_conflict` at a create with the id ` a1 ` on
a store that holds `a1`. -/
theorem create_duplicate_id_conflict_witness :
    (handleRequest exampleRuntime
        (createRequest "/nav/api/announcements".toList (some "Bearer tok".toList)
          (.str " a1 ".toList) (.str "New".toList) (.str "Body".toList))
        { apiEnv (some "/nav".toList) none with KV := some sampleStore }).2 =
      { apiEnv (some "/nav".toList) none with KV := some sampleStore } ∧
    (handleRequest exampleRuntime
        (createRequest "/nav/api/announcements".toList (some "Bearer tok".toList)
          (.str " a1 ".toList) (.str "New".toList) (.str "Body".toList))
        { apiEnv (some "/nav".toList) none with KV := some sampleStore }).1 =
      apiJson 400 (.idExists "a1".toList) :=
  have h := create_duplicate_id_conflict exampleRuntime
    (createRequest "/nav/api/announcements".toList (some "Bearer tok".toList)
      (.str " a1 ".toList) (.str "New".toList) (.str "Body".toList))
    { apiEnv (some "/nav".toList) none with KV := some sampleStore } sampleStore "a1".toList
    sampleAnnouncement .undefined (.str " a1 ".toList) (.str "New".toList) (.str "Body".toList)
    (by decide) (by decide) rfl rfl (by decide) (by decide)
  ⟨h.1, (h.2 (by decide)).2 (by decide) (by decide)⟩

/-- C10, on the code: an authorized create whose title is one blank and whose
content is `x` passes the validation (the blank string is truthy), answers 200,
and persists a record whose title, trimmed after the check, is empty. -/
theorem create_blank_title_persisted :
    handleAuth exampleRuntime
        (createRequest "/nav/api/announcements".toList (some "Bearer tok".toList)
          .undefined (.str " ".toList) (.str "x".toList))
        (apiEnv (some "/nav".toList) none) = none ∧
    handleRequest exampleRuntime
        (createRequest "/nav/api/announcements".toList (some "Bearer tok".toList)
          .undefined (.str " ".toList) (.str "x".toList))
        (apiEnv (some "/nav".toList) none) =
      (apiJson 200 (.successId "announcement_1700000000000".toList),
       { apiEnv (some "/nav".toList) none with
         KV := some { emptyStore with
           entries := [("announcement_1700000000000".toList,
             { id := "announcement_1700000000000".toList, title := [], content := "x".toList,
               createdAt := exampleRuntime.isoNow, updatedAt := none })] } }) := by
  decide

/-! ## Update and delete -/

theorem lookupKey_upsert_ne (key k : Str) (a : Announcement) (l : List (Str × Announcement))
    (h : k ≠ key) : lookupKey k (upsert key a l) = lookupKey k l := by
  induction l with
  | nil => simp [upsert, lookupKey, Ne.symm h]
  | cons e rest ih =>
    obtain ⟨k', v⟩ := e
    by_cases h' : k' = key
    · subst h'
      simp [upsert, lookupKey, Ne.symm h]
    · by_cases h'' : k' = k
      · subst h''
        simp [upsert, lookupKey, h']
      · simp [upsert, lookupKey, h', h'', ih]

theorem lookupKey_filter_self (key : Str) (l : List (Str × Announcement)) :
    lookupKey key (l.filter (fun e => e.1 != key)) = none := by
  induction l with
  | nil => rfl
  | cons e rest ih =>
    obtain ⟨k', v⟩ := e
    by_cases h' : k' = key
    · rw [List.filter_cons_of_neg (by simp [h'])]
      exact ih
    · rw [List.filter_cons_of_pos (by simp [h'])]
      simp [lookupKey, h', ih]

theorem lookupKey_filter_ne (key k : Str) (l : List (Str × Announcement)) (h : k ≠ key) :
    lookupKey k (l.filter (fun e => e.1 != key)) = lookupKey k l := by
  induction l with
  | nil => rfl
  | cons e rest ih =>
    obtain ⟨k', v⟩ := e
    by_cases h' : k' = key
    · subst h'
      rw [List.filter_cons_of_neg (by simp)]
      simp [lookupKey, Ne.symm h, ih]
    · rw [List.filter_cons_of_pos (by simp [h'])]
      by_cases h'' : k' = k
      · simp [lookupKey, h'']
      · simp [lookupKey, h'', ih]

theorem lookupKey_keyed (kv : KVNamespace) (k : Str) (a : Announcement)
    (hkeyed : kv.keyedById = true) (h : lookupKey k kv.entries = some a) : a.id = k := by
  unfold KVNamespace.keyedById at hkeyed
  generalize kv.entries = l at hkeyed h
  induction l with
  | nil => simp [lookupKey] at h
  | cons e rest ih =>
    obtain ⟨k', v⟩ := e
    simp only [List.all_cons, Bool.and_eq_true, beq_iff_eq] at hkeyed
    by_cases h' : k' = k
    · simp only [lookupKey, if_pos h', Option.some.injEq] at h
      rw [← h, ← h']
      exact hkeyed.1
    · simp only [lookupKey, if_neg h'] at h
      exact ih hkeyed.2 h

theorem get_some_some (kv : KVNamespace) (key : Str) (a : Announcement)
    (h : kv.get key = some (some a)) : key ∉ kv.getFails ∧ lookupKey key kv.entries = some a := by
  unfold KVNamespace.get at h
  by_cases hf : key ∈ kv.getFails
  · rw [if_pos hf] at h; exact absurd h (by simp)
  · rw [if_neg hf] at h
    exact ⟨hf, Option.some.inj h⟩

theorem handleRequest_apiUpdate (rt : Runtime) (request : Request) (env : Env)
    (hroute : route env request.method request.path = .apiUpdate)
    (hauth : handleAuth rt request env = none) :
    handleRequest rt request env = apiUpdate rt request env := by
  unfold handleRequest
  rw [hroute]
  simp [hauth]

theorem handleRequest_apiDelete (rt : Runtime) (request : Request) (env : Env)
    (hroute : route env request.method request.path = .apiDelete)
    (hauth : handleAuth rt request env = none) :
    handleRequest rt request env = apiDelete request env := by
  unfold handleRequest
  rw [hroute]
  simp [hauth]

theorem apiJson_status (status : Nat) (j : JsonOut) : (apiJson status j).status = status := rfl

/-- An update that answers 200 has put, under the path id, the existing record
with the path id, the trimmed title and content and a new `updatedAt`. -/
theorem apiUpdate_success (rt : Runtime) (request : Request) (env env' : Env) (resp : Response)
    (h : apiUpdate rt request env = (resp, env')) (hok : resp.status = 200) :
    ∃ kv existing pw dataId t c kv' updated,
      env.KV = some kv ∧ kv.get (lastSegment request.path) = some (some existing) ∧
      request.body.json = .value pw dataId (.str t) (.str c) ∧
      updated.id = lastSegment request.path ∧ updated.title = trim t ∧
      updated.content = trim c ∧ updated.createdAt = existing.createdAt ∧
      updated.updatedAt = some rt.isoNow ∧
      kv'.entries = upsert (lastSegment request.path) updated kv.entries ∧
      kv'.listFails = kv.listFails ∧ kv'.getFails = kv.getFails ∧
      kv'.putFails = kv.putFails ∧ kv'.deleteFails = kv.deleteFails ∧
      env'.KV = some kv' ∧ env'.AUTH_KEY = env.AUTH_KEY ∧ env'.PW = env.PW ∧
      env'.API_TOKEN = env.API_TOKEN ∧ env'.HOME_URL = env.HOME_URL := by
  unfold apiUpdate at h
  simp only at h
  split at h
  · cases h; simp [apiJson_status] at hok
  · rename_i kv hkv
    split at h
    · cases h; simp [apiJson_status] at hok
    · cases h; simp [apiJson_status] at hok
    · rename_i existing hget
      split at h
      · cases h; simp [apiJson_status] at hok
      · cases h; simp [apiJson_status] at hok
      · rename_i pw dataId dataTitle dataContent hjson
        split at h
        · cases h; simp [apiJson_status] at hok
        · split at h
          · cases h; simp [apiJson_status] at hok
          · split at h
            · rename_i t c _
              unfold KVNamespace.put at h
              by_cases hp : kv.putFails = true
              · rw [if_pos hp] at h
                cases h; simp [apiJson_status] at hok
              · rw [if_neg hp] at h
                simp only [Prod.mk.injEq] at h
                obtain ⟨_, h2⟩ := h
                subst h2
                exact ⟨kv, existing, pw, dataId, t, c,
                  KVNamespace.mk (upsert (lastSegment request.path)
                      (Announcement.mk (lastSegment request.path) (trim t) (trim c)
                        existing.createdAt (some rt.isoNow)) kv.entries)
                    kv.listFails kv.getFails kv.putFails kv.deleteFails,
                  Announcement.mk (lastSegment request.path) (trim t) (trim c)
                    existing.createdAt (some rt.isoNow),
                  hkv, hget, hjson, rfl, rfl, rfl, rfl,
                  rfl, rfl, rfl, rfl, rfl, rfl, rfl, rfl, rfl, rfl, rfl⟩
            · cases h; simp [apiJson_status] at hok
            · cases h; simp [apiJson_status] at hok

/-- C11: after an authorized update that answers 200, the record stored under
the path id keeps the `createdAt` of the record before and carries the path id
as its `id`, which is the `id` of the record before whenever that record was
keyed by its id (as the data model has it, and as every record this worker
writes is); the records under all other keys are unchanged. Title, content and
`updatedAt` are the only other fields of a record. -/
theorem update_changes_only_text (rt : Runtime) (request : Request) (env env' : Env)
    (resp : Response) (kv : KVNamespace) (existing : Announcement)
    (hroute : route env request.method request.path = .apiUpdate)
    (hauth : handleAuth rt request env = none)
    (hkv : env.KV = some kv)
    (hexists : lookupKey (lastSegment request.path) kv.entries = some existing)
    (hres : handleRequest rt request env = (resp, env'))
    (hok : resp.status = 200) :
    ∃ kv' updated, env'.KV = some kv' ∧
      lookupKey (lastSegment request.path) kv'.entries = some updated ∧
      updated.createdAt = existing.createdAt ∧
      updated.id = lastSegment request.path ∧
      (existing.id = lastSegment request.path → updated.id = existing.id) ∧
      (kv.keyedById = true → updated.id = existing.id) ∧
      (∀ k, k ≠ lastSegment request.path → lookupKey k kv'.entries = lookupKey k kv.entries) := by
  rw [handleRequest_apiUpdate rt request env hroute hauth] at hres
  obtain ⟨kv0, existing0, pw, dataId, t, c, kv', updated, hkv0, hget, _, hid, _, _, hcreated, _,
    hentries, _, _, _, _, hkv', _⟩ := apiUpdate_success rt request env env' resp hres hok
  rw [hkv] at hkv0
  cases Option.some.inj hkv0
  have hex0 := (get_some_some kv _ _ hget).2
  rw [hexists] at hex0
  cases Option.some.inj hex0
  refine ⟨kv', updated, hkv', ?_, hcreated, hid, fun h => by rw [hid, h],
    fun h => by rw [hid, lookupKey_keyed kv _ _ h hexists], ?_⟩
  · rw [hentries, lookupKey_upsert_self]
  · intro k hk
    rw [hentries, lookupKey_upsert_ne _ _ _ _ hk]

/-- The theorem `update_changes_only_text` at `PUT /nav/api/announcements/a1`
on the store that holds `a1`. -/
theorem update_changes_only_text_witness :
    ∃ kv' updated,
      (handleRequest exampleRuntime
        (jsonRequest "PUT".toList "/nav/api/announcements/a1".toList (some "Bearer tok".toList)
          .undefined (.str "New".toList) (.str "Body".toList))
        (storeEnv sampleStore)).2.KV = some kv' ∧
      lookupKey "a1".toList kv'.entries = some updated ∧
      updated.createdAt = sampleAnnouncement.createdAt ∧
      updated.id = "a1".toList ∧
      (sampleAnnouncement.id = "a1".toList → updated.id = sampleAnnouncement.id) ∧
      (sampleStore.keyedById = true → updated.id = sampleAnnouncement.id) ∧
      (∀ k, k ≠ "a1".toList → lookupKey k kv'.entries = lookupKey k sampleStore.entries) :=
  update_changes_only_text exampleRuntime
    (jsonRequest "PUT".toList "/nav/api/announcements/a1".toList (some "Bearer tok".toList)
      .undefined (.str "New".toList) (.str "Body".toList))
    (storeEnv sampleStore) _ _ sampleStore sampleAnnouncement
    (by decide) (by decide) rfl (by decide) rfl (by decide)

theorem apiUpdate_unchanged (rt : Runtime) (request : Request) (env : Env) :
    (apiUpdate rt request env).1.status = 200 ∨ (apiUpdate rt request env).2 = env := by
  unfold apiUpdate
  simp only
  split
  · right; rfl
  · split
    · right; rfl
    · right; rfl
    · split
      · right; rfl
      · right; rfl
      · split
        · right; rfl
        · split
          · right; rfl
          · split
            · split
              · right; rfl
              · left; rfl
            · right; rfl
            · right; rfl

/-- C12: an authorized update that does not answer 200 leaves the environment,
and so the store, unchanged. With the store bound and the read of the path id
not rejected: when no record exists under the path id the response is the 404;
when the record exists and the title or the content of the body is empty, the
400 validation error; when the record exists, both are given, and the body
carries an id other than the path id, the 400 id-mismatch error. -/
theorem update_failure_leaves_store (rt : Runtime) (request : Request) (env : Env)
    (hroute : route env request.method request.path = .apiUpdate)
    (hauth : handleAuth rt request env = none) :
    ((handleRequest rt request env).1.status ≠ 200 → (handleRequest rt request env).2 = env) ∧
    (∀ kv, env.KV = some kv → lastSegment request.path ∉ kv.getFails →
      (lookupKey (lastSegment request.path) kv.entries = none →
        (handleRequest rt request env).1 = apiJson 404 (.error "公告不存在")) ∧
      (∀ existing pw dataId dataTitle dataContent,
        lookupKey (lastSegment request.path) kv.entries = some existing →
        request.body.json = .value pw dataId dataTitle dataContent →
        ((dataTitle.truthy = false ∨ dataContent.truthy = false) →
          (handleRequest rt request env).1 = apiJson 400 (.error "标题和内容不能为空")) ∧
        (dataTitle.truthy = true → dataContent.truthy = true → dataId.truthy = true →
          dataId ≠ .str (lastSegment request.path) →
          (handleRequest rt request env).1 = apiJson 400 (.error "ID不匹配，不允许修改ID")))) := by
  rw [handleRequest_apiUpdate rt request env hroute hauth]
  constructor
  · intro h
    rcases apiUpdate_unchanged rt request env with h' | h'
    · exact absurd h' h
    · exact h'
  · intro kv hkv hfail
    have hget : kv.get (lastSegment request.path) =
        some (lookupKey (lastSegment request.path) kv.entries) := by
      unfold KVNamespace.get
      rw [if_neg hfail]
    constructor
    · intro hnone
      unfold apiUpdate
      simp only [hkv, hget, hnone]
    · intro existing pw dataId dataTitle dataContent hex hjson
      constructor
      · intro hempty
        unfold apiUpdate
        simp only [hkv, hget, hex, hjson]
        have : (!dataTitle.truthy || !dataContent.truthy) = true := by
          rcases hempty with h | h <;> simp [h]
        rw [if_pos this]
      · intro h1 h2 h3 h4
        unfold apiUpdate
        simp only [hkv, hget, hex, hjson]
        have hv : ¬ (!dataTitle.truthy || !dataContent.truthy) = true := by simp [h1, h2]
        have hi : (dataId.truthy && dataId != .str (lastSegment request.path)) = true := by
          simp [h3, h4]
        rw [if_neg hv, if_pos hi]

/-- The theorem `update_failure_leaves_store` on the store that holds `a1`: an
update of the missing `zz` answers 404, an update of `a1` with an empty title
answers the 400 validation error, an update of `a1` whose body carries the id
`b2` answers the 400 id-mismatch error, and the first leaves the store as it
was. -/
theorem update_failure_leaves_store_witness :
    (handleRequest exampleRuntime
        (jsonRequest "PUT".toList "/nav/api/announcements/zz".toList (some "Bearer tok".toList)
          .undefined (.str "New".toList) (.str "Body".toList))
        (storeEnv sampleStore)).1 = apiJson 404 (.error "公告不存在") ∧
    (handleRequest exampleRuntime
        (jsonRequest "PUT".toList "/nav/api/announcements/zz".toList (some "Bearer tok".toList)
          .undefined (.str "New".toList) (.str "Body".toList))
        (storeEnv sampleStore)).2 = storeEnv sampleStore ∧
    (handleRequest exampleRuntime
        (jsonRequest "PUT".toList "/nav/api/announcements/a1".toList (some "Bearer tok".toList)
          .undefined (.str [])  (.str "Body".toList))
        (storeEnv sampleStore)).1 = apiJson 400 (.error "标题和内容不能为空") ∧
    (handleRequest exampleRuntime
        (jsonRequest "PUT".toList "/nav/api/announcements/a1".toList (some "Bearer tok".toList)
          (.str "b2".toList) (.str "New".toList) (.str "Body".toList))
        (storeEnv sampleStore)).1 = apiJson 400 (.error "ID不匹配，不允许修改ID") :=
  ⟨((update_failure_leaves_store exampleRuntime
      (jsonRequest "PUT".toList "/nav/api/announcements/zz".toList (some "Bearer tok".toList)
        .undefined (.str "New".toList) (.str "Body".toList))
      (storeEnv sampleStore) (by decide) (by decide)).2 sampleStore rfl (by decide)).1
      (by decide),
   (update_failure_leaves_store exampleRuntime
      (jsonRequest "PUT".toList "/nav/api/announcements/zz".toList (some "Bearer tok".toList)
        .undefined (.str "New".toList) (.str "Body".toList))
      (storeEnv sampleStore) (by decide) (by decide)).1 (by decide),
   (((update_failure_leaves_store exampleRuntime
      (jsonRequest "PUT".toList "/nav/api/announcements/a1".toList (some "Bearer tok".toList)
        .undefined (.str []) (.str "Body".toList))
      (storeEnv sampleStore) (by decide) (by decide)).2 sampleStore rfl (by decide)).2
      sampleAnnouncement .undefined .undefined (.str []) (.str "Body".toList)
      (by decide) rfl).1 (Or.inl (by decide)),
   (((update_failure_leaves_store exampleRuntime
      (jsonRequest "PUT".toList "/nav/api/announcements/a1".toList (some "Bearer tok".toList)
        (.str "b2".toList) (.str "New".toList) (.str "Body".toList))
      (storeEnv sampleStore) (by decide) (by decide)).2 sampleStore rfl (by decide)).2
      sampleAnnouncement .undefined (.str "b2".toList) (.str "New".toList) (.str "Body".toList)
      (by decide) rfl).2 (by decide) (by decide) (by decide) (by decide)⟩

theorem working_iff (kv : KVNamespace) :
    kv.working = true ↔
      kv.listFails = false ∧ kv.getFails = [] ∧ kv.putFails = false ∧ kv.deleteFails = false := by
  unfold KVNamespace.working
  simp [List.isEmpty_iff, and_assoc]

/-- The delete handler on a working store. -/
theorem apiDelete_working (request : Request) (env : Env) (kv : KVNamespace)
    (hkv : env.KV = some kv) (hwork : kv.working = true) :
    (lookupKey (lastSegment request.path) kv.entries = none →
      apiDelete request env = (apiJson 200 (.successMessage "公告不存在或已被删除"), env)) ∧
    (∀ a, lookupKey (lastSegment request.path) kv.entries = some a →
      apiDelete request env =
        (apiJson 200 .success,
         { env with
           KV := some (KVNamespace.mk
             (kv.entries.filter (fun e => e.1 != lastSegment request.path))
             kv.listFails kv.getFails kv.putFails kv.deleteFails) })) := by
  obtain ⟨_, hg, _, hd⟩ := (working_iff kv).1 hwork
  have hget : kv.get (lastSegment request.path) =
      some (lookupKey (lastSegment request.path) kv.entries) := by
    unfold KVNamespace.get
    rw [hg]
    simp
  have hdel : kv.delete (lastSegment request.path) =
      some (KVNamespace.mk (kv.entries.filter (fun e => e.1 != lastSegment request.path))
        kv.listFails kv.getFails kv.putFails kv.deleteFails) := by
    unfold KVNamespace.delete
    rw [hd]
    simp
  constructor
  · intro hnone
    unfold apiDelete
    simp only [hkv, hget, hnone]
  · intro a ha
    unfold apiDelete
    simp only [hkv, hget, ha, hdel]

/-- C13: on a working store, an authorized DELETE of an announcement path answers
200 with a success body whether or not a record exists under the path id (the
last segment of the path); afterwards the store is still working, holds no
record under that id, and holds every other key as before; and every further
authorized DELETE of the same id answers 200 with a success body and leaves the
store as it is. -/
theorem delete_succeeds_twice (rt : Runtime) (request : Request) (env : Env) (kv : KVNamespace)
    (hroute : route env request.method request.path = .apiDelete)
    (hauth : handleAuth rt request env = none)
    (hkv : env.KV = some kv) (hwork : kv.working = true) :
    ((handleRequest rt request env).1 = apiJson 200 .success ∨
     (handleRequest rt request env).1 = apiJson 200 (.successMessage "公告不存在或已被删除")) ∧
    (∃ kv', (handleRequest rt request env).2.KV = some kv' ∧ kv'.working = true ∧
      lookupKey (lastSegment request.path) kv'.entries = none ∧
      ∀ k, k ≠ lastSegment request.path → lookupKey k kv'.entries = lookupKey k kv.entries) ∧
    (∀ (rt2 : Runtime) (request2 : Request),
      route (handleRequest rt request env).2 request2.method request2.path = .apiDelete →
      handleAuth rt2 request2 (handleRequest rt request env).2 = none →
      lastSegment request2.path = lastSegment request.path →
      (handleRequest rt2 request2 (handleRequest rt request env).2).1 =
        apiJson 200 (.successMessage "公告不存在或已被删除") ∧
      (handleRequest rt2 request2 (handleRequest rt request env).2).2 =
        (handleRequest rt request env).2) := by
  rw [handleRequest_apiDelete rt request env hroute hauth]
  obtain ⟨hnone, hsome⟩ := apiDelete_working request env kv hkv hwork
  have second : ∀ (env1 : Env) (kv1 : KVNamespace), env1.KV = some kv1 → kv1.working = true →
      lookupKey (lastSegment request.path) kv1.entries = none →
      ∀ (rt2 : Runtime) (request2 : Request),
        route env1 request2.method request2.path = .apiDelete →
        handleAuth rt2 request2 env1 = none →
        lastSegment request2.path = lastSegment request.path →
        (handleRequest rt2 request2 env1).1 =
          apiJson 200 (.successMessage "公告不存在或已被删除") ∧
        (handleRequest rt2 request2 env1).2 = env1 := by
    intro env1 kv1 hkv1 hw1 hl1 rt2 request2 hr2 ha2 hseg
    rw [handleRequest_apiDelete rt2 request2 env1 hr2 ha2]
    have := (apiDelete_working request2 env1 kv1 hkv1 hw1).1 (by rw [hseg]; exact hl1)
    rw [this]
    exact ⟨rfl, rfl⟩
  cases hl : lookupKey (lastSegment request.path) kv.entries with
  | none =>
    rw [hnone hl]
    refine ⟨Or.inr rfl, ⟨kv, hkv, hwork, hl, fun _ _ => rfl⟩, ?_⟩
    exact second env kv hkv hwork hl
  | some a =>
    rw [hsome a hl]
    have hw' : (KVNamespace.mk (kv.entries.filter (fun e => e.1 != lastSegment request.path))
        kv.listFails kv.getFails kv.putFails kv.deleteFails).working = true := hwork
    refine ⟨Or.inl rfl, ⟨_, rfl, hw', lookupKey_filter_self _ _,
      fun k hk => lookupKey_filter_ne _ _ _ hk⟩, ?_⟩
    exact second _ _ rfl hw' (lookupKey_filter_self _ _)

/-- The theorem `delete_succeeds_twice` at `DELETE /nav/api/announcements/a2` on
the store with `a1`, `a2`, `a3`: the first delete and a second one both answer
with a success body. -/
theorem delete_succeeds_twice_witness :
    ((handleRequest exampleRuntime
        (plainRequest "DELETE".toList "/nav/api/announcements/a2".toList none
          (some "Bearer tok".toList))
        (storeEnv pagedStore)).1 = apiJson 200 .success ∨
     (handleRequest exampleRuntime
        (plainRequest "DELETE".toList "/nav/api/announcements/a2".toList none
          (some "Bearer tok".toList))
        (storeEnv pagedStore)).1 = apiJson 200 (.successMessage "公告不存在或已被删除")) ∧
    (handleRequest exampleRuntime
        (plainRequest "DELETE".toList "/nav/api/announcements/a2".toList none
          (some "Bearer tok".toList))
        (handleRequest exampleRuntime
          (plainRequest "DELETE".toList "/nav/api/announcements/a2".toList none
            (some "Bearer tok".toList))
          (storeEnv pagedStore)).2).1 = apiJson 200 (.successMessage "公告不存在或已被删除") :=
  have h := delete_succeeds_twice exampleRuntime
    (plainRequest "DELETE".toList "/nav/api/announcements/a2".toList none
      (some "Bearer tok".toList))
    (storeEnv pagedStore) pagedStore (by decide) (by decide) rfl (by decide)
  ⟨h.1, (h.2.2 exampleRuntime
    (plainRequest "DELETE".toList "/nav/api/announcements/a2".toList none
      (some "Bearer tok".toList)) (by decide) (by decide) rfl).1⟩

/-! ## Records are keyed by their id -/

theorem all_upsert (key : Str) (a : Announcement) (l : List (Str × Announcement))
    (ha : a.id = key) (hl : l.all (fun e => e.2.id == e.1) = true) :
    (upsert key a l).all (fun e => e.2.id == e.1) = true := by
  induction l with
  | nil => simp [upsert, ha]
  | cons e rest ih =>
    obtain ⟨k, v⟩ := e
    simp only [List.all_cons, Bool.and_eq_true] at hl
    by_cases h : k = key
    · simp only [upsert, if_pos h, List.all_cons, Bool.and_eq_true]
      exact ⟨by simp [ha], hl.2⟩
    · simp only [upsert, if_neg h, List.all_cons, Bool.and_eq_true]
      exact ⟨hl.1, ih hl.2⟩

theorem all_filter (key : Str) (l : List (Str × Announcement))
    (hl : l.all (fun e => e.2.id == e.1) = true) :
    (l.filter (fun e => e.1 != key)).all (fun e => e.2.id == e.1) = true := by
  rw [List.all_eq_true] at hl ⊢
  intro e he
  exact hl e (List.mem_of_mem_filter he)

theorem apiCreate_keyed (rt : Runtime) (request : Request) (env : Env) (kv kv' : KVNamespace)
    (hkv : env.KV = some kv) (hkeyed : kv.keyedById = true)
    (hkv' : (apiCreate rt request env).2.KV = some kv') : kv'.keyedById = true := by
  have hsame : ∀ r : Response, ((r, env) : Response × Env).2.KV = some kv' →
      kv'.keyedById = true := by
    intro r h
    have h' : env.KV = some kv' := h
    rw [hkv] at h'
    cases Option.some.inj h'
    exact hkeyed
  unfold apiCreate at hkv'
  simp only [hkv] at hkv'
  split at hkv'
  · exact hsame _ hkv'
  · exact hsame _ hkv'
  · split at hkv'
    · exact hsame _ hkv'
    · split at hkv'
      · exact hsame _ hkv'
      · split at hkv'
        · split at hkv'
          · exact hsame _ hkv'
          · rename_i kvp hput
            have h' : kvp = kv' := Option.some.inj hkv'
            subst h'
            unfold KVNamespace.put at hput
            split at hput
            · exact absurd hput (by simp)
            · rw [← Option.some.inj hput]
              unfold KVNamespace.keyedById
              exact all_upsert _ _ _ rfl hkeyed
        · exact hsame _ hkv'
        · exact hsame _ hkv'

theorem apiUpdate_keyed (rt : Runtime) (request : Request) (env : Env) (kv kv' : KVNamespace)
    (hkv : env.KV = some kv) (hkeyed : kv.keyedById = true)
    (hkv' : (apiUpdate rt request env).2.KV = some kv') : kv'.keyedById = true := by
  rcases apiUpdate_unchanged rt request env with hok | hsame
  · obtain ⟨kv0, _, _, _, _, _, kv1, updated, hkv0, _, _, hid, _, _, _, _, hentries, _, _, _, _,
      hkv1, _⟩ := apiUpdate_success rt request env (apiUpdate rt request env).2
        (apiUpdate rt request env).1 rfl hok
    rw [hkv] at hkv0
    cases Option.some.inj hkv0
    rw [hkv'] at hkv1
    cases Option.some.inj hkv1
    unfold KVNamespace.keyedById
    rw [hentries]
    exact all_upsert _ _ _ hid hkeyed
  · rw [hsame, hkv] at hkv'
    cases Option.some.inj hkv'
    exact hkeyed

theorem apiDelete_keyed (request : Request) (env : Env) (kv kv' : KVNamespace)
    (hkv : env.KV = some kv) (hkeyed : kv.keyedById = true)
    (hkv' : (apiDelete request env).2.KV = some kv') : kv'.keyedById = true := by
  have hsame : ∀ r : Response, ((r, env) : Response × Env).2.KV = some kv' →
      kv'.keyedById = true := by
    intro r h
    have h' : env.KV = some kv' := h
    rw [hkv] at h'
    cases Option.some.inj h'
    exact hkeyed
  unfold apiDelete at hkv'
  simp only [hkv] at hkv'
  split at hkv'
  · exact hsame _ hkv'
  · exact hsame _ hkv'
  · split at hkv'
    · exact hsame _ hkv'
    · rename_i kvd hdel
      have h' : kvd = kv' := Option.some.inj hkv'
      subst h'
      unfold KVNamespace.delete at hdel
      split at hdel
      · exact absurd hdel (by simp)
      · rw [← Option.some.inj hdel]
        unfold KVNamespace.keyedById
        exact all_filter _ _ hkeyed

theorem handleRequest_env (rt : Runtime) (request : Request) (env : Env) :
    (handleRequest rt request env).2 = env ∨
    (handleRequest rt request env).2 = (apiCreate rt request env).2 ∨
    (handleRequest rt request env).2 = (apiUpdate rt request env).2 ∨
    (handleRequest rt request env).2 = (apiDelete request env).2 := by
  unfold handleRequest
  cases route env request.method request.path <;>
    cases handleAuth rt request env <;> simp

/-- Every record the worker writes is keyed by its id: a store in which every
record carries its key as its `id` stays so after any request. -/
theorem handleRequest_keeps_keyedById (rt : Runtime) (request : Request) (env : Env)
    (kv kv' : KVNamespace) (hkv : env.KV = some kv) (hkeyed : kv.keyedById = true)
    (hkv' : (handleRequest rt request env).2.KV = some kv') : kv'.keyedById = true := by
  rcases handleRequest_env rt request env with h | h | h | h
  · rw [h, hkv] at hkv'
    cases Option.some.inj hkv'
    exact hkeyed
  · rw [h] at hkv'
    exact apiCreate_keyed rt request env kv kv' hkv hkeyed hkv'
  · rw [h] at hkv'
    exact apiUpdate_keyed rt request env kv kv' hkv hkeyed hkv'
  · rw [h] at hkv'
    exact apiDelete_keyed request env kv kv' hkv hkeyed hkv'

/-! ## Pagination -/

/-- The quotient taken on integers in `paginate` is the ceiling of the rational
quotient. -/
theorem ceil_div_eq (n p : Nat) (hp : 0 < p) :
    ⌈(n : ℚ) / (p : ℚ)⌉₊ = (n + p - 1) / p := by
  have hpq : (0 : ℚ) < (p : ℚ) := by exact_mod_cast hp
  apply le_antisymm
  · rw [Nat.ceil_le, div_le_iff₀ hpq]
    have h1 : n + p - 1 < p * ((n + p - 1) / p + 1) := Nat.lt_mul_div_succ _ hp
    have h2 : n ≤ (n + p - 1) / p * p := by
      have : p * ((n + p - 1) / p + 1) = (n + p - 1) / p * p + p := by ring
      omega
    exact_mod_cast h2
  · by_cases hq : (n + p - 1) / p = 0
    · rw [hq]; exact Nat.zero_le _
    · have hq1 : (n + p - 1) / p - 1 < ⌈(n : ℚ) / (p : ℚ)⌉₊ := by
        rw [Nat.lt_ceil, lt_div_iff₀ hpq]
        have h1 : (n + p - 1) / p * p ≤ n + p - 1 := Nat.div_mul_le_self _ _
        have h2 : ((n + p - 1) / p - 1) * p < n := by
          have : ((n + p - 1) / p - 1) * p = (n + p - 1) / p * p - p := by
            rw [Nat.sub_mul, Nat.one_mul]
          have h3 : p ≤ (n + p - 1) / p * p := by
            have : 1 ≤ (n + p - 1) / p := Nat.one_le_iff_ne_zero.2 hq
            calc p = 1 * p := (Nat.one_mul p).symm
              _ ≤ (n + p - 1) / p * p := Nat.mul_le_mul_right p this
          have hn : 0 < n := by
            by_contra h0
            have : n = 0 := by omega
            subst this
            apply hq
            apply Nat.div_eq_of_lt
            omega
          omega
        exact_mod_cast h2
      omega

/-- With the store bound and the key listing answered, `getAnnouncements`
paginates the fetched announcements. -/
theorem getAnnouncements_ok (env : Env) (page : Int) (pageSize : Nat) (kv : KVNamespace)
    (keys : List Str) (hkv : env.KV = some kv) (hlist : kv.list = some keys) :
    getAnnouncements env page pageSize =
      paginate (fetched kv keys) (if page = 0 then 1 else page)
        (if pageSize = 0 then 10 else pageSize) := by
  unfold getAnnouncements fetched
  rw [hkv]
  simp only [hlist]

theorem getAnnouncements_cases (env : Env) (page : Int) (pageSize : Nat) :
    (∃ msg, getAnnouncements env page pageSize = listError msg) ∨
    (∃ kv keys, env.KV = some kv ∧ kv.list = some keys ∧
      getAnnouncements env page pageSize =
        paginate (fetched kv keys) (if page = 0 then 1 else page)
          (if pageSize = 0 then 10 else pageSize)) := by
  cases hkv : env.KV with
  | none => left; exact ⟨"KV绑定不可用", by unfold getAnnouncements; rw [hkv]⟩
  | some kv =>
    cases hlist : kv.list with
    | none =>
      left
      exact ⟨"无法获取公告列表: 未知错误", by unfold getAnnouncements; rw [hkv]; simp only [hlist]⟩
    | some keys =>
      right
      exact ⟨kv, keys, rfl, hlist, getAnnouncements_ok env page pageSize kv keys hkv hlist⟩

/-- C14: for every page size above zero, the `totalPages` that `getAnnouncements`
reports is `max(1, ceil(totalItems / pageSize))` of the `totalItems` it reports,
and `totalItems` is the number of announcements fetched from the store. -/
theorem totalPages_eq_ceil (env : Env) (page : Int) (pageSize : Nat) (hps : 0 < pageSize) :
    (getAnnouncements env page pageSize).pagination.totalPages =
      max 1 ⌈((getAnnouncements env page pageSize).pagination.totalItems : ℚ) / (pageSize : ℚ)⌉₊ ∧
    (∀ kv keys, env.KV = some kv → kv.list = some keys →
      (getAnnouncements env page pageSize).pagination.totalItems = (fetched kv keys).length) := by
  have hne : (if pageSize = 0 then 10 else pageSize) = pageSize := by
    rw [if_neg (by omega)]
  constructor
  · rcases getAnnouncements_cases env page pageSize with ⟨msg, h⟩ | ⟨kv, keys, _, _, h⟩
    · rw [h]
      simp [listError]
    · rw [h, hne]
      simp only [paginate]
      rw [ceil_div_eq _ _ hps]
  · intro kv keys hkv hlist
    rw [getAnnouncements_ok env page pageSize kv keys hkv hlist]
    rfl

/-- The theorem `totalPages_eq_ceil` on the store with three announcements and
the page size 2. -/
theorem totalPages_eq_ceil_witness :
    (getAnnouncements (storeEnv pagedStore) 1 2).pagination.totalPages =
      max 1 ⌈((getAnnouncements (storeEnv pagedStore) 1 2).pagination.totalItems : ℚ)
        / ((2 : Nat) : ℚ)⌉₊ ∧
    (getAnnouncements (storeEnv pagedStore) 1 2).pagination.totalItems =
      (fetched pagedStore ["a1".toList, "a2".toList, "a3".toList]).length :=
  ⟨(totalPages_eq_ceil (storeEnv pagedStore) 1 2 (by decide)).1,
   (totalPages_eq_ceil (storeEnv pagedStore) 1 2 (by decide)).2 pagedStore _ rfl rfl⟩

/-- C15: for every requested page, the `currentPage` that `getAnnouncements`
reports lies between 1 and the reported `totalPages`; it is the requested page
when that is in range, 1 when the request is below 1, and `totalPages` when the
request is above it. -/
theorem currentPage_clamped (env : Env) (page : Int) (pageSize : Nat) :
    1 ≤ (getAnnouncements env page pageSize).pagination.currentPage ∧
    (getAnnouncements env page pageSize).pagination.currentPage ≤
      ((getAnnouncements env page pageSize).pagination.totalPages : Int) ∧
    (1 ≤ page → page ≤ ((getAnnouncements env page pageSize).pagination.totalPages : Int) →
      (getAnnouncements env page pageSize).pagination.currentPage = page) ∧
    (page < 1 → (getAnnouncements env page pageSize).pagination.currentPage = 1) ∧
    (((getAnnouncements env page pageSize).pagination.totalPages : Int) < page →
      (getAnnouncements env page pageSize).pagination.currentPage =
        ((getAnnouncements env page pageSize).pagination.totalPages : Int)) := by
  rcases getAnnouncements_cases env page pageSize with ⟨msg, h⟩ | ⟨kv, keys, _, _, h⟩
  · rw [h]
    simp only [listError]
    refine ⟨le_refl _, by norm_num, ?_, ?_, ?_⟩
    · intro h1 h2
      have : page ≤ 1 := by exact_mod_cast h2
      omega
    · intro _; trivial
    · intro _; norm_num
  · rw [h]
    simp only [paginate]
    have htp : (1 : Int) ≤ ((max 1 (((fetched kv keys).length +
        (if pageSize = 0 then 10 else pageSize) - 1) /
        (if pageSize = 0 then 10 else pageSize)) : Nat) : Int) := by
      exact_mod_cast le_max_left _ _
    generalize ((max 1 (((fetched kv keys).length +
        (if pageSize = 0 then 10 else pageSize) - 1) /
        (if pageSize = 0 then 10 else pageSize)) : Nat) : Int) = tp at htp ⊢
    by_cases h0 : page = 0
    · subst h0
      simp only [if_true]
      refine ⟨?_, ?_, ?_, ?_, ?_⟩ <;> intros <;> omega
    · rw [if_neg h0]
      refine ⟨?_, ?_, ?_, ?_, ?_⟩ <;> intros <;> omega

/-- The theorem `currentPage_clamped` on the store with three announcements and
the page size 2 (two pages): the requests 2, 0, -3 and 7 report the pages 2, 1,
1 and 2. -/
theorem currentPage_clamped_witness :
    (getAnnouncements (storeEnv pagedStore) 2 2).pagination.currentPage = 2 ∧
    (getAnnouncements (storeEnv pagedStore) 0 2).pagination.currentPage = 1 ∧
    (getAnnouncements (storeEnv pagedStore) (-3) 2).pagination.currentPage = 1 ∧
    (getAnnouncements (storeEnv pagedStore) 7 2).pagination.currentPage =
      ((getAnnouncements (storeEnv pagedStore) 7 2).pagination.totalPages : Int) :=
  ⟨(currentPage_clamped (storeEnv pagedStore) 2 2).2.2.1 (by decide) (by decide),
   (currentPage_clamped (storeEnv pagedStore) 0 2).2.2.2.1 (by decide),
   (currentPage_clamped (storeEnv pagedStore) (-3) 2).2.2.2.1 (by decide),
   (currentPage_clamped (storeEnv pagedStore) 7 2).2.2.2.2 (by decide)⟩

theorem paginate_items (l : List Announcement) (page : Int) (pageSize : Nat) :
    (paginate l page pageSize).announcements =
      (l.drop (((paginate l page pageSize).pagination.currentPage.toNat - 1) * pageSize)).take
        (min ((paginate l page pageSize).pagination.currentPage.toNat * pageSize) l.length -
          ((paginate l page pageSize).pagination.currentPage.toNat - 1) * pageSize) := by
  simp only [paginate]
  have htp : 1 ≤ max 1 ((l.length + pageSize - 1) / pageSize) := le_max_left _ _
  generalize (max 1 ((l.length + pageSize - 1) / pageSize) : Nat) = tp at htp ⊢
  have hcur : (1 : Int) ≤ min (tp : Int) (max 1 page) := by omega
  obtain ⟨c, hc⟩ := Int.eq_ofNat_of_zero_le (show (0 : Int) ≤ min (tp : Int) (max 1 page) by omega)
  rw [hc] at hcur ⊢
  have hc1 : 1 ≤ c := by exact_mod_cast hcur
  have h1 : (((c : Int) - 1) * (pageSize : Int)).toNat = (c - 1) * pageSize := by
    have : ((c : Int) - 1) * (pageSize : Int) = (((c - 1) * pageSize : Nat) : Int) := by
      push_cast [Nat.cast_sub hc1]
      ring
    rw [this]
    exact Int.toNat_natCast _
  have h2 : (c : Int).toNat = c := Int.toNat_natCast c
  rw [h1, h2]
  have h3 : (c - 1) * pageSize + pageSize = c * pageSize := by
    have : c = (c - 1) + 1 := by omega
    conv_rhs => rw [this, Nat.add_mul, Nat.one_mul]
  rw [h3]

theorem paginate_length_le (l : List Announcement) (page : Int) (pageSize : Nat) :
    (paginate l page pageSize).announcements.length ≤ pageSize := by
  simp only [paginate, List.length_take, List.length_drop]
  omega

/-- C16: for every fetched announcement list, page size above zero and requested
page, with `p` the reported `currentPage`, the items `getAnnouncements` returns
are the elements of the full list at the indices from `(p-1)*pageSize` up to,
not including, `min(p*pageSize, totalItems)`, in order, so their number never
exceeds `pageSize`. -/
theorem page_items_slice (env : Env) (page : Int) (pageSize : Nat) (kv : KVNamespace)
    (keys : List Str) (hps : 0 < pageSize) (hkv : env.KV = some kv)
    (hlist : kv.list = some keys) :
    (getAnnouncements env page pageSize).announcements =
      ((fetched kv keys).drop
        (((getAnnouncements env page pageSize).pagination.currentPage.toNat - 1) * pageSize)).take
        (min ((getAnnouncements env page pageSize).pagination.currentPage.toNat * pageSize)
            (fetched kv keys).length -
          ((getAnnouncements env page pageSize).pagination.currentPage.toNat - 1) * pageSize) ∧
    (∀ j, j < min ((getAnnouncements env page pageSize).pagination.currentPage.toNat * pageSize)
            (fetched kv keys).length -
          ((getAnnouncements env page pageSize).pagination.currentPage.toNat - 1) * pageSize →
      (getAnnouncements env page pageSize).announcements[j]? =
        (fetched kv keys)[((getAnnouncements env page pageSize).pagination.currentPage.toNat - 1)
          * pageSize + j]?) ∧
    (getAnnouncements env page pageSize).announcements.length =
      min ((getAnnouncements env page pageSize).pagination.currentPage.toNat * pageSize)
          (fetched kv keys).length -
        ((getAnnouncements env page pageSize).pagination.currentPage.toNat - 1) * pageSize ∧
    (getAnnouncements env page pageSize).announcements.length ≤ pageSize := by
  have hne : (if pageSize = 0 then 10 else pageSize) = pageSize := by
    rw [if_neg (by omega)]
  rw [getAnnouncements_ok env page pageSize kv keys hkv hlist, hne]
  have hitems := paginate_items (fetched kv keys) (if page = 0 then 1 else page) pageSize
  refine ⟨hitems, ?_, ?_, paginate_length_le _ _ _⟩
  · intro j hj
    rw [hitems, List.getElem?_take_of_lt hj, List.getElem?_drop]
  · rw [hitems, List.length_take, List.length_drop]
    omega

/-- The theorem `page_items_slice` on the store with three announcements, at
the page 2 of size 2. -/
theorem page_items_slice_witness :
    (getAnnouncements (storeEnv pagedStore) 2 2).announcements.length =
      min ((getAnnouncements (storeEnv pagedStore) 2 2).pagination.currentPage.toNat * 2)
          (fetched pagedStore ["a1".toList, "a2".toList, "a3".toList]).length -
        ((getAnnouncements (storeEnv pagedStore) 2 2).pagination.currentPage.toNat - 1) * 2 ∧
    (getAnnouncements (storeEnv pagedStore) 2 2).announcements.length ≤ 2 :=
  (page_items_slice (storeEnv pagedStore) 2 2 pagedStore
    ["a1".toList, "a2".toList, "a3".toList] (by decide) rfl rfl).2.2

/-! ## Routing -/

theorem route_foreign (env : Env) (method path : Str) (h : isForeignPath env path = true) :
    route env method path = if path == ['/'] || path == [] then .root else .forbidden := by
  unfold isForeignPath at h
  simp only [Bool.and_eq_true, bne_iff_ne, ne_eq, Bool.not_eq_true'] at h
  obtain ⟨⟨⟨h1, h2⟩, h3⟩, h4⟩ := h
  unfold route
  simp only [beq_eq_false_iff_ne.2 h3, beq_eq_false_iff_ne.2 h4, Bool.or_self, Bool.false_eq_true,
    if_false]
  by_cases hr : (path == ['/'] || path == []) = true
  · rw [if_pos hr, if_pos hr]
  · rw [if_neg hr, if_neg hr]
    have : (dropTrailingSlash (toLowerCase path) != dropTrailingSlash (toLowerCase (basePathOf env)) &&
        !startsWith (dropTrailingSlash (toLowerCase path))
          (dropTrailingSlash (toLowerCase (basePathOf env)) ++ ['/'])) = true := by
      simp [h1, h2]
    rw [if_pos this]

theorem basePathOf_congr (env env' : Env) (h : env'.HOME_URL = env.HOME_URL) :
    basePathOf env' = basePathOf env := by
  unfold basePathOf
  rw [h]

/-- C17, as amended: for an ASCII base path and an ASCII path that is neither
the base path, nor under it, nor the logout path, `handleRequest` answers 204
with no body when the path is `/` (or empty), and otherwise 403 with the fixed
text `拒绝访问 - 403 Forbidden`; it leaves the store as it is, and the response is
the same for every request with that path and every environment with that base
path, whatever the method, cookie, API token, secrets or store. -/
theorem foreign_path_denied (rt : Runtime) (request : Request) (env : Env)
    (_hbase : isAscii (basePathOf env) = true) (_hpath : isAscii request.path = true)
    (h : isForeignPath env request.path = true) :
    handleRequest rt request env =
      (if request.path == ['/'] || request.path == [] then createNoCacheResponse .null 204 []
       else createNoCacheResponse (.text "拒绝访问 - 403 Forbidden") 403 textType, env) ∧
    (∀ (rt' : Runtime) (request' : Request) (env' : Env),
      request'.path = request.path → env'.HOME_URL = env.HOME_URL →
      (handleRequest rt' request' env').1 = (handleRequest rt request env).1) := by
  have key : ∀ (rt : Runtime) (request : Request) (env : Env),
      isForeignPath env request.path = true →
      handleRequest rt request env =
        (if request.path == ['/'] || request.path == [] then createNoCacheResponse .null 204 []
         else createNoCacheResponse (.text "拒绝访问 - 403 Forbidden") 403 textType, env) := by
    intro rt request env h
    unfold handleRequest
    rw [route_foreign env request.method request.path h]
    by_cases hr : (request.path == ['/'] || request.path == []) = true
    · simp only [hr, if_true]
    · simp only [hr, if_false]
      rfl
  refine ⟨key rt request env h, ?_⟩
  intro rt' request' env' hp he
  have h' : isForeignPath env' request'.path = true := by
    unfold isForeignPath
    rw [basePathOf_congr env env' he, hp]
    exact h
  rw [key rt request env h, key rt' request' env' h', hp]

/-- The theorem `foreign_path_denied` at `/random` under the base path `/nav`:
the request with a session cookie and a store gets the response of the bare
request. -/
theorem foreign_path_denied_witness :
    (handleRequest exampleRuntime
        (plainRequest "POST".toList "/random".toList (some "token=abc".toList)
          (some "Bearer tok".toList))
        (storeEnv pagedStore)).1 =
      (handleRequest exampleRuntime (plainRequest "GET".toList "/random".toList none none)
        (secretEnv "abc".toList)).1 :=
  (foreign_path_denied exampleRuntime (plainRequest "GET".toList "/random".toList none none)
    (secretEnv "abc".toList) (by decide) (by decide) (by decide)).2 exampleRuntime
      (plainRequest "POST".toList "/random".toList (some "token=abc".toList)
        (some "Bearer tok".toList))
      (storeEnv pagedStore) rfl rfl

/-- C17, as stated, fails: under the base path `/nav`, the path `/random` is
neither the base path, nor under it, nor the logout path, and the 403 response
has a body, the text `拒绝访问 - 403 Forbidden`. -/
theorem foreign_path_403_has_body :
    isForeignPath (secretEnv "abc".toList) "/random".toList = true ∧
    (handleRequest exampleRuntime (plainRequest "GET".toList "/random".toList none none)
      (secretEnv "abc".toList)).1.status = 403 ∧
    (handleRequest exampleRuntime (plainRequest "GET".toList "/random".toList none none)
      (secretEnv "abc".toList)).1.body = .text "拒绝访问 - 403 Forbidden" ∧
    (handleRequest exampleRuntime (plainRequest "GET".toList "/random".toList none none)
      (secretEnv "abc".toList)).1.body ≠ .null := by
  decide

theorem basePathOf_ne_nil (env : Env) : basePathOf env ≠ [] := by
  unfold basePathOf jsOr
  cases h : env.HOME_URL with
  | none => simp [truthy]
  | some s =>
    cases s with
    | nil => simp [truthy]
    | cons c cs => simp [truthy]

theorem toLowerCase_append (s t : Str) : toLowerCase (s ++ t) = toLowerCase s ++ toLowerCase t := by
  simp [toLowerCase]

theorem ne_append_of_ne_nil (s t : Str) (ht : t ≠ []) : s ≠ s ++ t := by
  intro h
  have := congrArg List.length h
  simp only [List.length_append] at this
  have : t.length = 0 := by omega
  exact ht (List.length_eq_zero.1 this)

theorem route_base (env : Env) (method : Str) (hbase : basePathOf env ≠ ['/']) :
    route env method (basePathOf env) = .listView := by
  unfold route
  have h1 : (toLowerCase (basePathOf env) == toLowerCase (basePathOf env ++ "/logout".toList))
      = false := by
    rw [beq_eq_false_iff_ne, toLowerCase_append]
    exact ne_append_of_ne_nil _ _ (by decide)
  have h2 : (toLowerCase (basePathOf env) ==
      toLowerCase (basePathOf env ++ "/logout".toList) ++ ['/']) = false := by
    rw [beq_eq_false_iff_ne, toLowerCase_append, List.append_assoc]
    exact ne_append_of_ne_nil _ _ (by decide)
  have h3 : (basePathOf env == ['/']) = false := beq_eq_false_iff_ne.2 hbase
  have h4 : (basePathOf env == []) = false := beq_eq_false_iff_ne.2 (basePathOf_ne_nil env)
  simp only [h1, h2, h3, h4, Bool.or_self, Bool.false_eq_true, if_false, bne_self_eq_false,
    Bool.false_and, beq_self_eq_true, if_true]

theorem route_root (env : Env) (method : Str) (hbase : basePathOf env = ['/']) :
    route env method ['/'] = .root := by
  unfold route
  rw [hbase]
  rfl

theorem getAnnouncements_error_none (env : Env) (page : Int) (pageSize : Nat) (kv : KVNamespace)
    (hkv : env.KV = some kv) (hlist : kv.listFails = false) :
    (getAnnouncements env page pageSize).error = none := by
  have : kv.list = some ((kv.entries.map (fun e => e.1)).take 1000) := by
    unfold KVNamespace.list
    rw [hlist]
    rfl
  rw [getAnnouncements_ok env page pageSize kv _ hkv this]
  rfl

/-- C18, as amended: for a request whose path is exactly the base path `P`: when
`P` is not `/`, the request is authenticated and the store is bound and answers
its key listing, `handleRequest` serves the list view, a 200 HTML page built
from the result of `getAnnouncements`; when `P` is `/` (the default when none is
configured), it answers 204 with no body, before any authentication. -/
theorem base_path_serves_list (rt : Runtime) (request : Request) (env : Env)
    (hpath : request.path = basePathOf env) :
    (basePathOf env ≠ ['/'] → handleAuth rt request env = none →
      ∀ kv, env.KV = some kv → kv.listFails = false →
        handleRequest rt request env =
          (createNoCacheResponse
            (.announcementHtml "公告列表" (getAnnouncements env (pageOf request) 10).announcements
              false (getAnnouncements env (pageOf request) 10).pagination (basePathOf env) [])
            200 htmlType, env)) ∧
    (basePathOf env = ['/'] →
      handleRequest rt request env = (createNoCacheResponse .null 204 [], env)) := by
  constructor
  · intro hbase hauth kv hkv hlist
    unfold handleRequest
    rw [hpath, route_base env request.method hbase]
    simp only [hauth]
    unfold listView
    simp only [getAnnouncements_error_none env (pageOf request) 10 kv hkv hlist]
  · intro hbase
    unfold handleRequest
    rw [hpath, hbase, route_root env request.method hbase]

/-- The theorem `base_path_serves_list` at `GET /nav` under the base path
`/nav`, on the store with three announcements. -/
theorem base_path_serves_list_witness :
    handleRequest exampleRuntime (plainRequest "GET".toList "/nav".toList none none)
        (storeEnv pagedStore) =
      (createNoCacheResponse
        (.announcementHtml "公告列表"
          (getAnnouncements (storeEnv pagedStore)
            (pageOf (plainRequest "GET".toList "/nav".toList none none)) 10).announcements
          false
          (getAnnouncements (storeEnv pagedStore)
            (pageOf (plainRequest "GET".toList "/nav".toList none none)) 10).pagination
          (basePathOf (storeEnv pagedStore)) [])
        200 htmlType, storeEnv pagedStore) :=
  (base_path_serves_list exampleRuntime (plainRequest "GET".toList "/nav".toList none none)
    (storeEnv pagedStore) rfl).1 (by decide) (by decide) pagedStore rfl rfl

/-- C18, as stated, fails: with no base path configured the base path is `/`,
and the authenticated `GET /` on a working store is answered 204 with no body,
not with the list view. -/
theorem root_base_path_not_served :
    basePathOf (apiEnv none none) = ['/'] ∧
    handleAuth exampleRuntime (plainRequest "GET".toList ['/'] none none) (apiEnv none none)
      = none ∧
    handleRequest exampleRuntime (plainRequest "GET".toList ['/'] none none) (apiEnv none none) =
      (createNoCacheResponse .null 204 [], apiEnv none none) := by
  decide

/-- C19: for every request whose path is the base path followed by `/logout`,
`handleRequest` answers with `createLogoutRedirect` and leaves the store as it
is: status 302, `Location` the (slash-normalised) base path on the request's
origin, `Set-Cookie` the session cookie with an empty value and `Max-Age=0`. The
response is the same for every request with that path and origin and every
environment with that base path: no cookie, token, method or secret is read. -/
theorem logout_redirects (rt : Runtime) (request : Request) (env : Env)
    (hpath : request.path = basePathOf env ++ "/logout".toList) :
    handleRequest rt request env = (createLogoutRedirect request env, env) ∧
    (createLogoutRedirect request env).status = 302 ∧
    (createLogoutRedirect request env).header "Location" =
      some (request.origin ++ normalizeBase (basePathOf env)) ∧
    (createLogoutRedirect request env).header "Set-Cookie" =
      some ("token=; HttpOnly; SameSite=Strict; Path=/; Max-Age=0; ".toList ++
        "Expires=Thu, 01 Jan 1970 00:00:00 GMT".toList) ∧
    (∀ (rt' : Runtime) (request' : Request) (env' : Env),
      request'.path = request.path → request'.origin = request.origin →
      env'.HOME_URL = env.HOME_URL →
      (handleRequest rt' request' env').1 = (handleRequest rt request env).1) := by
  have key : ∀ (rt : Runtime) (request : Request) (env : Env),
      request.path = basePathOf env ++ "/logout".toList →
      handleRequest rt request env = (createLogoutRedirect request env, env) := by
    intro rt request env hpath
    unfold handleRequest
    have : route env request.method request.path = .logout := by
      unfold route
      rw [hpath]
      simp
    rw [this]
  refine ⟨key rt request env hpath, rfl, rfl, rfl, ?_⟩
  intro rt' request' env' hp ho he
  have hb := basePathOf_congr env env' he
  rw [key rt request env hpath, key rt' request' env' (by rw [hp, hb, hpath])]
  show createLogoutRedirect request' env' = createLogoutRedirect request env
  unfold createLogoutRedirect
  rw [hb, ho]

/-- The theorem `logout_redirects` at `POST /nav/logout`. -/
theorem logout_redirects_witness :
    handleRequest exampleRuntime
        (plainRequest "POST".toList "/nav/logout".toList (some "token=wrong".toList) none)
        (secretEnv "abc".toList) =
      (createLogoutRedirect
        (plainRequest "POST".toList "/nav/logout".toList (some "token=wrong".toList) none)
        (secretEnv "abc".toList), secretEnv "abc".toList) ∧
    (createLogoutRedirect
        (plainRequest "POST".toList "/nav/logout".toList (some "token=wrong".toList) none)
        (secretEnv "abc".toList)).header "Location" = some "https://example.com/nav".toList :=
  ⟨(logout_redirects exampleRuntime
      (plainRequest "POST".toList "/nav/logout".toList (some "token=wrong".toList) none)
      (secretEnv "abc".toList) rfl).1,
   (logout_redirects exampleRuntime
      (plainRequest "POST".toList "/nav/logout".toList (some "token=wrong".toList) none)
      (secretEnv "abc".toList) rfl).2.2.1⟩

theorem toLower_eq_slash (c : Char) (h : c.toLower = '/') : c = '/' := by
  unfold Char.toLower at h
  simp only at h
  by_cases hr : c.toNat ≥ 65 ∧ c.toNat ≤ 90
  · exfalso
    rw [if_pos hr] at h
    have h1 : 65 ≤ c.toNat := hr.1
    have h2 : c.toNat ≤ 90 := hr.2
    generalize c.toNat = n at h h1 h2
    interval_cases n <;> revert h <;> decide
  · rw [if_neg hr] at h
    exact h

theorem endsWith_slash_iff (s : Str) : endsWith s ['/'] = true ↔ ∃ t, s = t ++ ['/'] := by
  unfold endsWith
  rw [startsWith_iff]
  constructor
  · rintro ⟨r, h⟩
    refine ⟨r.reverse, ?_⟩
    have := congrArg List.reverse h
    simpa using this
  · rintro ⟨t, rfl⟩
    exact ⟨t.reverse, by simp⟩

theorem toLowerCase_endsWith_slash (s : Str) :
    endsWith (toLowerCase s) ['/'] = endsWith s ['/'] := by
  rw [Bool.eq_iff_iff, endsWith_slash_iff, endsWith_slash_iff]
  constructor
  · rintro ⟨t, h⟩
    rcases List.eq_nil_or_concat s with rfl | ⟨s', c, rfl⟩
    · simp [toLowerCase] at h
    · simp only [toLowerCase, List.concat_eq_append, List.map_append, List.map_cons,
        List.map_nil] at h
      have := List.append_inj' h rfl
      have hc : c = '/' := toLower_eq_slash c (by simpa using this.2)
      exact ⟨s', by rw [hc]; simp⟩
  · rintro ⟨t, rfl⟩
    exact ⟨toLowerCase t, by simp [toLowerCase]⟩

theorem dropTrailingSlash_append (s : Str) : dropTrailingSlash (s ++ ['/']) = s := by
  unfold dropTrailingSlash
  rw [if_pos ((endsWith_slash_iff _).2 ⟨s, rfl⟩)]
  simp

theorem dropTrailingSlash_of_not (s : Str) (h : endsWith s ['/'] = false) :
    dropTrailingSlash s = s := by
  unfold dropTrailingSlash
  rw [h]
  simp

theorem toLowerCase_eq_single (p p' : Str) (h : toLowerCase p' = toLowerCase p) :
    (p' == ['/']) = (p == ['/']) ∧ (p' == []) = (p == []) := by
  have key : ∀ a b : Str, toLowerCase a = toLowerCase b → a = ['/'] → b = ['/'] := by
    intro a b hab ha
    subst ha
    cases b with
    | nil => simp [toLowerCase] at hab
    | cons c cs =>
      cases cs with
      | nil =>
        simp only [toLowerCase, List.map_cons, List.map_nil, List.cons.injEq, and_true] at hab
        rw [toLower_eq_slash c hab.symm]
      | cons d ds => simp [toLowerCase] at hab
  have key2 : ∀ a b : Str, toLowerCase a = toLowerCase b → a = [] → b = [] := by
    intro a b hab ha
    subst ha
    cases b with
    | nil => rfl
    | cons c cs => simp [toLowerCase] at hab
  constructor
  · rw [Bool.eq_iff_iff, beq_iff_eq, beq_iff_eq]
    exact ⟨key p' p h, key p p' h.symm⟩
  · rw [Bool.eq_iff_iff, beq_iff_eq, beq_iff_eq]
    exact ⟨key2 p' p h, key2 p p' h.symm⟩

/-- C20: for every base path, method and path, the route that `handleRequest`
selects is the same for every path that differs only in letter case (has the
same lower-case form), and, when the path does not end in `/`, for the path with
one trailing slash appended. -/
theorem route_case_and_trailing_slash (env : Env) (method path : Str) :
    (∀ path', toLowerCase path' = toLowerCase path →
      route env method path' = route env method path) ∧
    (endsWith path ['/'] = false → route env method (path ++ ['/']) = route env method path) := by
  constructor
  · intro path' h
    unfold route
    simp only [h, (toLowerCase_eq_single path path' h).1, (toLowerCase_eq_single path path' h).2]
  · intro hend
    have hlend : endsWith (toLowerCase path) ['/'] = false := by
      rw [toLowerCase_endsWith_slash]; exact hend
    have hlow : toLowerCase (path ++ ['/']) = toLowerCase path ++ ['/'] := by
      simp [toLowerCase]
    have hL : endsWith (toLowerCase (basePathOf env ++ "/logout".toList)) ['/'] = false := by
      rw [toLowerCase_endsWith_slash]
      cases hb : endsWith (basePathOf env ++ "/logout".toList) ['/'] with
      | false => rfl
      | true =>
        obtain ⟨t, ht⟩ := (endsWith_slash_iff _).1 hb
        have := congrArg List.getLast? ht
        simp at this
    have h1 : (toLowerCase path ++ ['/'] == toLowerCase (basePathOf env ++ "/logout".toList))
        = false := by
      rw [beq_eq_false_iff_ne]
      intro h
      have := (endsWith_slash_iff _).2 ⟨_, h.symm⟩
      rw [hL] at this
      exact absurd this (by simp)
    have h2 : (toLowerCase path == toLowerCase (basePathOf env ++ "/logout".toList) ++ ['/'])
        = false := by
      rw [beq_eq_false_iff_ne]
      intro h
      have := (endsWith_slash_iff _).2 ⟨_, h⟩
      rw [hlend] at this
      exact absurd this (by simp)
    have h3 : (toLowerCase path ++ ['/'] ==
        toLowerCase (basePathOf env ++ "/logout".toList) ++ ['/']) =
        (toLowerCase path == toLowerCase (basePathOf env ++ "/logout".toList)) := by
      rw [Bool.eq_iff_iff, beq_iff_eq, beq_iff_eq]
      exact ⟨fun h => List.append_cancel_right h, fun h => by rw [h]⟩
    have h4 : (path == ['/']) = false := by
      rw [beq_eq_false_iff_ne]
      intro h
      rw [h] at hend
      exact absurd hend (by decide)
    have h5 : (path ++ ['/'] == ['/']) = (path == []) := by
      rw [Bool.eq_iff_iff, beq_iff_eq, beq_iff_eq]
      constructor
      · intro h
        cases path with
        | nil => rfl
        | cons c cs =>
          have := congrArg List.length h
          simp at this
      · intro h; rw [h]; rfl
    have h6 : (path ++ ['/'] == []) = false := by
      rw [beq_eq_false_iff_ne]
      simp
    unfold route
    simp only [hlow, h1, h2, h3, h4, h5, h6, dropTrailingSlash_append,
      dropTrailingSlash_of_not _ hlend, Bool.false_or, Bool.or_false]

/-- The theorem `route_case_and_trailing_slash` at `/nav/admin`: the paths
`/NAV/Admin` and `/nav/admin/` select the same route. -/
theorem route_case_and_trailing_slash_witness :
    route (storeEnv pagedStore) "GET".toList "/NAV/Admin".toList =
      route (storeEnv pagedStore) "GET".toList "/nav/admin".toList ∧
    route (storeEnv pagedStore) "GET".toList ("/nav/admin".toList ++ ['/']) =
      route (storeEnv pagedStore) "GET".toList "/nav/admin".toList :=
  ⟨(route_case_and_trailing_slash (storeEnv pagedStore) "GET".toList "/nav/admin".toList).1
      "/NAV/Admin".toList (by decide),
   (route_case_and_trailing_slash (storeEnv pagedStore) "GET".toList "/nav/admin".toList).2
      (by decide)⟩

/-! ## Store failures -/

theorem getAnnouncements_unavailable (env : Env) (page : Int) (pageSize : Nat) :
    (env.KV = none → getAnnouncements env page pageSize = listError "KV绑定不可用") ∧
    (∀ kv, env.KV = some kv → kv.listFails = true →
      getAnnouncements env page pageSize = listError "无法获取公告列表: 未知错误") := by
  constructor
  · intro h
    unfold getAnnouncements
    rw [h]
  · intro kv hkv hl
    have : kv.list = none := by
      unfold KVNamespace.list
      rw [hl]
      rfl
    unfold getAnnouncements
    rw [hkv]
    simp only [this]

theorem handleRequest_routed (rt : Runtime) (request : Request) (env : Env)
    (hauth : handleAuth rt request env = none) :
    (route env request.method request.path = .listView →
      handleRequest rt request env = (listView rt request env, env)) ∧
    (route env request.method request.path = .adminView →
      handleRequest rt request env = (adminView request env, env)) ∧
    (route env request.method request.path = .apiList →
      handleRequest rt request env = (apiList request env, env)) := by
  refine ⟨?_, ?_, ?_⟩ <;> intro h <;> unfold handleRequest <;> rw [h] <;> simp [hauth]

/-- Where a store failure is reported: with no namespace bound, the list view
and the five API routes answer 500; with a key listing that rejects, the list
view and the API list, the other callers of `getAnnouncements`, answer 500. -/
theorem store_unavailable_500 (rt : Runtime) (request : Request) (env : Env)
    (hauth : handleAuth rt request env = none) :
    (env.KV = none →
      route env request.method request.path = .listView ∨
      route env request.method request.path = .apiList ∨
      route env request.method request.path = .apiGet ∨
      route env request.method request.path = .apiCreate ∨
      route env request.method request.path = .apiUpdate ∨
      route env request.method request.path = .apiDelete →
      (handleRequest rt request env).1.status = 500) ∧
    (∀ kv, env.KV = some kv → kv.listFails = true →
      route env request.method request.path = .listView ∨
      route env request.method request.path = .apiList →
      (handleRequest rt request env).1.status = 500) := by
  obtain ⟨hlv, _, hal⟩ := handleRequest_routed rt request env hauth
  constructor
  · intro hkv hr
    have hg := (getAnnouncements_unavailable env (pageOf request) 10).1 hkv
    rcases hr with h | h | h | h | h | h
    · rw [hlv h]
      unfold listView
      simp only [hg, listError]
      rfl
    · rw [hal h]
      unfold apiList
      rw [hkv]
      rfl
    · rw [handleRequest_apiGet rt request env h hauth]
      unfold apiGet
      rw [hkv]
      rfl
    · rw [handleRequest_apiCreate rt request env h hauth]
      unfold apiCreate
      rw [hkv]
      rfl
    · rw [handleRequest_apiUpdate rt request env h hauth]
      unfold apiUpdate
      rw [hkv]
      rfl
    · rw [handleRequest_apiDelete rt request env h hauth]
      unfold apiDelete
      rw [hkv]
      rfl
  · intro kv hkv hl hr
    have hg := (getAnnouncements_unavailable env (pageOf request) 10).2 kv hkv hl
    rcases hr with h | h
    · rw [hlv h]
      unfold listView
      simp only [hg, listError]
      rfl
    · rw [hal h]
      unfold apiList
      rw [hkv]
      simp only [hg, listError]
      rfl

/-- The admin view answers 200 whatever `getAnnouncements` returns. -/
theorem adminView_status (request : Request) (env : Env) : (adminView request env).status = 200 :=
  rfl

/-- C21, on the code: with no namespace bound, the authorized `GET /nav/admin` is
routed to the admin view, `getAnnouncements` returns its error result, and the
response is the 200 admin page with an empty announcement list (one page, no
items); the same request on a store whose key listing rejects is answered 200
too. The list view, `GET /nav`, answers 500 in both situations. -/
theorem admin_view_ignores_store_error :
    route noStoreEnv "GET".toList "/nav/admin".toList = .adminView ∧
    handleAuth exampleRuntime (plainRequest "GET".toList "/nav/admin".toList none none)
      noStoreEnv = none ∧
    (getAnnouncements noStoreEnv 1 10).error = some "KV绑定不可用" ∧
    (handleRequest exampleRuntime (plainRequest "GET".toList "/nav/admin".toList none none)
        noStoreEnv).1 =
      createNoCacheResponse
        (.announcementHtml "公告管理" [] true
          { currentPage := 1, totalPages := 1, totalItems := 0 } "/nav".toList "tok".toList)
        200 htmlType ∧
    (handleRequest exampleRuntime (plainRequest "GET".toList "/nav/admin".toList none none)
        (storeEnv failingListStore)).1.status = 200 ∧
    (handleRequest exampleRuntime (plainRequest "GET".toList "/nav".toList none none)
        noStoreEnv).1.status = 500 ∧
    (handleRequest exampleRuntime (plainRequest "GET".toList "/nav".toList none none)
        (storeEnv failingListStore)).1.status = 500 := by
  decide

/-! ## The materialised list and its pages -/

/-- C22: the announcements `getAnnouncements` materialises from a key listing are
the stored values of the keys, in listing order, with every key left out whose
fetch rejects or finds nothing. With the store bound and the listing answered,
whatever the per-key fetches do, the call reports no error, `totalItems` is the
number of the surviving items, and the result is the pagination of that list. -/
theorem fetched_drops_failed_fetches (env : Env) (kv : KVNamespace) (keys : List Str)
    (page : Int) (pageSize : Nat) :
    (∀ ks : List Str, fetched kv ks =
      ks.filterMap (fun key => if key ∈ kv.getFails then none else lookupKey key kv.entries)) ∧
    (env.KV = some kv → kv.list = some keys →
      (getAnnouncements env page pageSize).error = none ∧
      (getAnnouncements env page pageSize).pagination.totalItems =
        (keys.filterMap
          (fun key => if key ∈ kv.getFails then none else lookupKey key kv.entries)).length ∧
      getAnnouncements env page pageSize =
        paginate (keys.filterMap
            (fun key => if key ∈ kv.getFails then none else lookupKey key kv.entries))
          (if page = 0 then 1 else page) (if pageSize = 0 then 10 else pageSize)) := by
  have key : ∀ ks : List Str, fetched kv ks =
      ks.filterMap (fun key => if key ∈ kv.getFails then none else lookupKey key kv.entries) := by
    intro ks
    unfold fetched
    rw [List.filterMap_map]
    congr 1
    funext k
    unfold KVNamespace.get
    by_cases h : k ∈ kv.getFails <;> simp [h]
  refine ⟨key, ?_⟩
  intro hkv hlist
  rw [getAnnouncements_ok env page pageSize kv keys hkv hlist, key keys]
  exact ⟨rfl, rfl, rfl⟩

/-- The theorem `fetched_drops_failed_fetches` on the store with `a1`, `a2`,
`a3` in which the fetch of `a2` rejects: no error, two items, `a1` and `a3` in
that order. -/
theorem fetched_drops_failed_fetches_witness :
    (getAnnouncements (storeEnv flakyStore) 1 10).error = none ∧
    (getAnnouncements (storeEnv flakyStore) 1 10).pagination.totalItems =
      (["a1".toList, "a2".toList, "a3".toList].filterMap
        (fun key => if key ∈ flakyStore.getFails then none
          else lookupKey key flakyStore.entries)).length ∧
    (getAnnouncements (storeEnv flakyStore) 1 10).pagination.totalItems = 2 ∧
    (getAnnouncements (storeEnv flakyStore) 1 10).announcements =
      [sampleAnnouncement, { sampleAnnouncement with id := "a3".toList }] :=
  ⟨((fetched_drops_failed_fetches (storeEnv flakyStore) flakyStore
      ["a1".toList, "a2".toList, "a3".toList] 1 10).2 rfl rfl).1,
   ((fetched_drops_failed_fetches (storeEnv flakyStore) flakyStore
      ["a1".toList, "a2".toList, "a3".toList] 1 10).2 rfl rfl).2.1,
   by decide, by decide⟩

/-- The items `paginate` returns for the page `i + 1`, below the number of pages,
are the `i`-th block of `pageSize` elements. -/
theorem paginate_page (l : List Announcement) (pageSize i : Nat)
    (hi : i < (paginate l 1 pageSize).pagination.totalPages) :
    (paginate l ((i : Int) + 1) pageSize).announcements = (l.drop (i * pageSize)).take pageSize := by
  simp only [paginate] at hi ⊢
  generalize (max 1 ((l.length + pageSize - 1) / pageSize) : Nat) = tp at hi ⊢
  have hcur : min (tp : Int) (max 1 ((i : Int) + 1)) = ((i + 1 : Nat) : Int) := by
    push_cast
    omega
  rw [hcur]
  have h1 : ((((i + 1 : Nat) : Int) - 1) * (pageSize : Int)).toNat = i * pageSize := by
    have : (((i + 1 : Nat) : Int) - 1) * (pageSize : Int) = ((i * pageSize : Nat) : Int) := by
      push_cast
      ring
    rw [this]
    exact Int.toNat_natCast _
  rw [h1]
  apply List.ext_getElem?
  intro j
  simp only [List.getElem?_take, List.getElem?_drop]
  by_cases hj : j < pageSize
  · by_cases hj2 : j < min (i * pageSize + pageSize) l.length - i * pageSize
    · simp [hj, hj2]
    · have : l.length ≤ i * pageSize + j := by omega
      simp [hj, hj2, List.getElem?_eq_none this]
  · have hj2 : ¬ j < min (i * pageSize + pageSize) l.length - i * pageSize := by omega
    simp [hj, hj2]

theorem flatten_blocks (l : List Announcement) (pageSize k : Nat) :
    ((List.range k).map (fun i => (l.drop (i * pageSize)).take pageSize)).flatten
      = l.take (k * pageSize) := by
  induction k with
  | zero => simp
  | succ k ih =>
    rw [List.range_succ, List.map_append, List.flatten_append, ih]
    simp only [List.map_cons, List.map_nil, List.flatten_cons, List.flatten_nil, List.append_nil]
    rw [Nat.succ_mul, List.take_add]

theorem totalPages_covers (n pageSize : Nat) (hps : 0 < pageSize) :
    n ≤ max 1 ((n + pageSize - 1) / pageSize) * pageSize := by
  have h1 : n + pageSize - 1 < pageSize * ((n + pageSize - 1) / pageSize + 1) :=
    Nat.lt_mul_div_succ _ hps
  have h2 : pageSize * ((n + pageSize - 1) / pageSize + 1)
      = (n + pageSize - 1) / pageSize * pageSize + pageSize := by ring
  have h3 : (n + pageSize - 1) / pageSize * pageSize
      ≤ max 1 ((n + pageSize - 1) / pageSize) * pageSize :=
    Nat.mul_le_mul_right _ (le_max_right _ _)
  omega

theorem full_before_last (n pageSize i : Nat) (hps : 0 < pageSize)
    (hi : i + 1 < max 1 ((n + pageSize - 1) / pageSize)) : (i + 1) * pageSize ≤ n := by
  have h1 : i + 1 < (n + pageSize - 1) / pageSize := by
    rcases max_cases 1 ((n + pageSize - 1) / pageSize) with ⟨h, _⟩ | ⟨h, _⟩
    · rw [h] at hi; omega
    · rw [h] at hi; exact hi
  have h2 : (i + 2) * pageSize ≤ (n + pageSize - 1) / pageSize * pageSize :=
    Nat.mul_le_mul_right _ h1
  have h3 : (n + pageSize - 1) / pageSize * pageSize ≤ n + pageSize - 1 :=
    Nat.div_mul_le_self _ _
  have h4 : (i + 2) * pageSize = (i + 1) * pageSize + pageSize := by ring
  omega

/-- C23: for a fixed store (bound, its listing answered) and every page size
above zero, the items `getAnnouncements` returns for the pages 1, 2, ...,
`totalPages`, concatenated, are the full fetched list in order; the item at
place `r` of page `i + 1` is the element `i * pageSize + r` of the full list, so
every announcement is on exactly one page; every page before the last has
exactly `pageSize` items; and `totalPages` is the same whatever page is asked
for. -/
theorem pages_partition_list (env : Env) (kv : KVNamespace) (keys : List Str) (pageSize : Nat)
    (hps : 0 < pageSize) (hkv : env.KV = some kv) (hlist : kv.list = some keys) :
    ((List.range (getAnnouncements env 1 pageSize).pagination.totalPages).map
        (fun (i : Nat) => (getAnnouncements env ((i : Int) + 1) pageSize).announcements)).flatten
      = fetched kv keys ∧
    (∀ i, i < (getAnnouncements env 1 pageSize).pagination.totalPages →
      ∀ r, r < pageSize →
        (getAnnouncements env ((i : Int) + 1) pageSize).announcements[r]? =
          (fetched kv keys)[i * pageSize + r]?) ∧
    (∀ i, i + 1 < (getAnnouncements env 1 pageSize).pagination.totalPages →
      (getAnnouncements env ((i : Int) + 1) pageSize).announcements.length = pageSize) ∧
    (∀ page : Int, (getAnnouncements env page pageSize).pagination.totalPages =
      (getAnnouncements env 1 pageSize).pagination.totalPages) := by
  have hne : (if pageSize = 0 then 10 else pageSize) = pageSize := by
    rw [if_neg (by omega)]
  have hget : ∀ page : Int, getAnnouncements env page pageSize =
      paginate (fetched kv keys) (if page = 0 then 1 else page) pageSize := by
    intro page
    rw [getAnnouncements_ok env page pageSize kv keys hkv hlist, hne]
  have hpage : ∀ i : Nat, getAnnouncements env ((i : Int) + 1) pageSize =
      paginate (fetched kv keys) ((i : Int) + 1) pageSize := by
    intro i
    rw [hget, if_neg (by omega)]
  have htp : (getAnnouncements env 1 pageSize).pagination.totalPages =
      (paginate (fetched kv keys) 1 pageSize).pagination.totalPages := by
    rw [hget]
    rfl
  have hblock : ∀ i, i < (paginate (fetched kv keys) 1 pageSize).pagination.totalPages →
      (getAnnouncements env ((i : Int) + 1) pageSize).announcements =
        ((fetched kv keys).drop (i * pageSize)).take pageSize := by
    intro i hi
    rw [hpage i, paginate_page (fetched kv keys) pageSize i hi]
  rw [htp]
  refine ⟨?_, ?_, ?_, ?_⟩
  · have hmap : (List.range (paginate (fetched kv keys) 1 pageSize).pagination.totalPages).map
          (fun (i : Nat) => (getAnnouncements env ((i : Int) + 1) pageSize).announcements) =
        (List.range (paginate (fetched kv keys) 1 pageSize).pagination.totalPages).map
          (fun i => ((fetched kv keys).drop (i * pageSize)).take pageSize) := by
      apply List.map_congr_left
      intro i hi
      exact hblock i (List.mem_range.1 hi)
    rw [hmap, flatten_blocks]
    apply List.take_of_length_le
    exact totalPages_covers _ _ hps
  · intro i hi r hr
    rw [hblock i hi, List.getElem?_take_of_lt hr, List.getElem?_drop]
  · intro i hi
    have hi' : i < (paginate (fetched kv keys) 1 pageSize).pagination.totalPages := by omega
    rw [hblock i hi', List.length_take, List.length_drop]
    have := full_before_last (fetched kv keys).length pageSize i hps hi
    have h2 : (i + 1) * pageSize = i * pageSize + pageSize := by ring
    omega
  · intro page
    rw [hget]
    rfl

/-- The theorem `pages_partition_list` on the store with three announcements
and the page size 2: the two pages together are the full list, and the first
page has two items. -/
theorem pages_partition_list_witness :
    ((List.range (getAnnouncements (storeEnv pagedStore) 1 2).pagination.totalPages).map
        (fun (i : Nat) =>
          (getAnnouncements (storeEnv pagedStore) ((i : Int) + 1) 2).announcements)).flatten
      = fetched pagedStore ["a1".toList, "a2".toList, "a3".toList] ∧
    (getAnnouncements (storeEnv pagedStore) ((0 : Nat) + 1 : Int) 2).announcements.length = 2 :=
  ⟨(pages_partition_list (storeEnv pagedStore) pagedStore
      ["a1".toList, "a2".toList, "a3".toList] 2 (by decide) rfl rfl).1,
   (pages_partition_list (storeEnv pagedStore) pagedStore
      ["a1".toList, "a2".toList, "a3".toList] 2 (by decide) rfl rfl).2.2.1 0 (by decide)⟩

/-! ## Responses that set a cookie, and the API login path -/

theorem apiJson_no_cookie (status : Nat) (j : JsonOut) :
    (apiJson status j).header "Set-Cookie" = none := rfl

theorem listView_no_cookie (rt : Runtime) (request : Request) (env : Env) :
    (listView rt request env).header "Set-Cookie" = none := by
  unfold listView
  simp only []
  repeat' split
  all_goals rfl

theorem apiList_no_cookie (request : Request) (env : Env) :
    (apiList request env).header "Set-Cookie" = none := by
  unfold apiList
  simp only []
  repeat' split
  all_goals rfl

theorem apiGet_no_cookie (request : Request) (env : Env) :
    (apiGet request env).header "Set-Cookie" = none := by
  unfold apiGet
  simp only []
  repeat' split
  all_goals rfl

theorem apiCreate_no_cookie (rt : Runtime) (request : Request) (env : Env) :
    (apiCreate rt request env).1.header "Set-Cookie" = none := by
  unfold apiCreate
  simp only []
  repeat' split
  all_goals first
    | rfl
    | (rename_i heq
       repeat' split at heq
       all_goals first
         | (cases heq; rfl)
         | cases heq)

theorem apiUpdate_no_cookie (rt : Runtime) (request : Request) (env : Env) :
    (apiUpdate rt request env).1.header "Set-Cookie" = none := by
  unfold apiUpdate
  simp only []
  repeat' split
  all_goals rfl

theorem apiDelete_no_cookie (request : Request) (env : Env) :
    (apiDelete request env).1.header "Set-Cookie" = none := by
  unfold apiDelete
  simp only []
  repeat' split
  all_goals rfl

theorem handleAuth_cookie_redirect (rt : Runtime) (request : Request) (env : Env) (r : Response)
    (h : handleAuth rt request env = some r) :
    r.status = 302 ∨ r.header "Set-Cookie" = none := by
  unfold handleAuth at h
  simp only [] at h
  repeat' split at h
  all_goals first
    | (cases h; exact Or.inr rfl)
    | (cases h; exact Or.inl rfl)
    | cases h

/-- Only a redirect sets a cookie: a response of `handleRequest` whose status is
not 302 has no `Set-Cookie` header. -/
theorem set_cookie_only_on_redirect (rt : Runtime) (request : Request) (env : Env)
    (h : (handleRequest rt request env).1.status ≠ 302) :
    (handleRequest rt request env).1.header "Set-Cookie" = none := by
  unfold handleRequest at h ⊢
  split
  · rename_i hr
    rw [hr] at h
    exact absurd rfl h
  · rfl
  · rfl
  · rfl
  · rename_i r h1 h2 h3 h4
    split
    · rename_i a ha
      rcases handleAuth_cookie_redirect rt request env a ha with h302 | hn
      · exfalso
        apply h
        split
        · exact absurd ‹_› h1
        · exact absurd ‹_› h2
        · exact absurd ‹_› h3
        · exact absurd ‹_› h4
        · simp only [ha]
          exact h302
      · exact hn
    · split
      · exact listView_no_cookie rt request env
      · rfl
      · exact apiList_no_cookie request env
      · exact apiGet_no_cookie request env
      · exact apiCreate_no_cookie rt request env
      · exact apiUpdate_no_cookie rt request env
      · exact apiDelete_no_cookie request env
      · rfl

theorem handleRequest_noMatch (rt : Runtime) (request : Request) (env : Env)
    (h : route env request.method request.path = .noMatch) :
    handleRequest rt request env = (createNoCacheResponse .null 204 [], env) := by
  unfold handleRequest
  rw [h]

theorem route_api_login_default (env : Env) (method : Str) (h : env.HOME_URL = none) :
    route env method "/api/login".toList = .noMatch := by
  have hb : basePathOf env = ['/'] := by
    unfold basePathOf
    rw [h]
    rfl
  unfold route
  rw [hb]
  generalize (method == "GET".toList) = g
  generalize (method == "POST".toList) = p
  generalize (method == "PUT".toList) = u
  generalize (method == "DELETE".toList) = d
  cases g <;> cases p <;> cases u <;> cases d <;> decide

/-- With no base path configured, every request to `/api/login` is answered 204
with no body, whatever its method, headers and body and whatever the secret. -/
theorem api_login_default_204 (rt : Runtime) (request : Request) (env : Env)
    (h : env.HOME_URL = none) (hp : request.path = "/api/login".toList) :
    handleRequest rt request env = (createNoCacheResponse .null 204 [], env) := by
  apply handleRequest_noMatch
  rw [hp]
  exact route_api_login_default env request.method h

end CloudflareNav
